import Mathlib

/-!
Verification development for the GLSL backend code generator
(`src/Compiler/Backend/GLSL/GLSLGenerator.cpp` of the XShaderCompiler
repository).

The definitions below are a shallow embedding of the generator: the
visitor functions of `GLSLGenerator.cpp` are translated one-to-one into
Lean functions over an explicit AST data model.  The generator's text
output is modelled as a list of characters, its diagnostics as a list of
(severity, message) pairs and the optional texture statistics as a list
of (identifier, binding) pairs; one emission step produces a `Delta`
holding these three write-only components, and sequencing of emission
steps is `Delta` concatenation.

Collaborator code that lives outside the given source file (the
`Generator` base class's sink protocol, the keyword lookup tables, the
analysis passes A-D and the semantic annotations of the front-end) is
modelled from the specification; each such definition carries a comment
starting with "Modelled from the spec".
-/

namespace Xsc

/-! ### Diagnostics and text output -/

/-- Severity of a reported diagnostic (spec section 6: two severities). -/
inductive Severity where
  | warning
  | error
deriving DecidableEq, Repr

/-- A diagnostic record: severity plus human-readable message. -/
structure Diag where
  severity : Severity
  message  : String
deriving DecidableEq, Repr

/-- One recorded texture statistic: identifier and binding slot
(spec section 6: optional statistics output collects per-texture
(identifier, binding) records). -/
abbrev TexStat := String × Int

/-- Everything one emission step appends: text written to the sink,
diagnostics reported to the log, statistics records. -/
structure Delta where
  text  : List Char
  diags : List Diag
  stats : List TexStat
deriving DecidableEq, Repr

instance : Append Delta := ⟨fun a b => ⟨a.text ++ b.text, a.diags ++ b.diags, a.stats ++ b.stats⟩⟩

namespace Delta

/-- The empty emission. -/
def nil : Delta := ⟨[], [], []⟩

end Delta

/-- Shorthand: the character list of a string literal. -/
def str (s : String) : List Char := s.data

/-- Emission that writes raw text to the sink (`Generator::Write`;
Modelled from the spec, section 4.E: "a sink that receives text";
every `Write` call appends text verbatim). -/
def wr (s : String) : Delta := ⟨s.data, [], []⟩

/-- Emission that only reports a diagnostic. -/
def diag (sev : Severity) (msg : String) : Delta := ⟨[], [⟨sev, msg⟩], []⟩

/-- Report an error diagnostic (`Generator::Error`).  Modelled from the
spec, section 7: recoverable errors are reported to the caller-supplied
log and continuation proceeds. -/
def errorD (msg : String) : Delta := diag .error msg

/-- Report a warning diagnostic (`Generator::Warning`).  Modelled from
the spec, sections 6 and 7: warnings never abort. -/
def warningD (msg : String) : Delta := diag .warning msg

/-! ### Writer context

Modelled from the spec, section 4.E: the emitter maintains a current
indent level, a begin-line/end-line protocol, an "inside entry point"
flag, an "inside interface block" flag and a small options stack used to
suppress line breaks when re-emitting `for`-loop init/condition/iteration
inline.  Indentation is four spaces per level (section 6). -/
structure Ctx where
  indent : Nat
  insideEntryPoint : Bool
  insideInterfaceBlock : Bool
  optNewLines : Bool
  optBlanks : Bool
deriving DecidableEq, Repr

/-- The initial writer context of a generation run. -/
def Ctx.init : Ctx := ⟨0, false, false, true, true⟩

/-- Indentation characters for a given level: four spaces per level. -/
def indentChars (n : Nat) : List Char := List.replicate (4 * n) ' '

/-- `Generator::BeginLn`: start a line by writing the indentation
(suppressed while the new-lines option is off). -/
def beginLn (c : Ctx) : Delta :=
  if c.optNewLines then ⟨indentChars c.indent, [], []⟩ else Delta.nil

/-- `Generator::EndLn`: finish a line with a newline character
(suppressed while the new-lines option is off). -/
def endLn (c : Ctx) : Delta :=
  if c.optNewLines then wr "\n" else Delta.nil

/-- `Generator::WriteLn`: a full line (begin line, text, end line). -/
def writeLn (c : Ctx) (s : String) : Delta := beginLn c ++ wr s ++ endLn c

/-- `Generator::Blank`: an empty line (suppressed while the blanks
option is off). -/
def blank (c : Ctx) : Delta :=
  if c.optBlanks then wr "\n" else Delta.nil

/-- `GLSLGenerator::Comment`: `WriteLn("// " + text)`. -/
def comment (c : Ctx) (text : String) : Delta := writeLn c ("// " ++ text)

/-- Push the options `{ false, false }` used for the for-loop header
(`PushOptions({ false, false })`). -/
def pushInlineOptions (c : Ctx) : Ctx := { c with optNewLines := false, optBlanks := false }

/-- `Generator::IncIndent` for the duration of a nested emission. -/
def incIndent (c : Ctx) : Ctx := { c with indent := c.indent + 1 }

/-! ### Register prefix validation (lines 195-237 of the source) -/

/-- Subscript access `s[i]` of a C++ `const std::string`: for `i` up to
the size this is an in-bounds read of the null-terminated buffer, and
`s[size()]` is the null character that the C++11 standard guarantees. -/
def cppStringAt (s : String) (i : Nat) : Char := s.data.getD i (Char.ofNat 0)

/-- `GLSLGenerator::ValidateRegisterPrefix` (the name is shortened to
`validateRegisterPfx` here): if the register name is empty or its first
character differs from the expected kind character, report an error
diagnostic naming both characters.  Returns the reported diagnostics. -/
def validateRegisterPfx (registerName : String) (k : Char) : List Diag :=
  if registerName.isEmpty || cppStringAt registerName 0 != k then
    [⟨.error,
      "invalid register prefix '" ++ String.mk [cppStringAt registerName 0] ++
      "' (expected '" ++ String.mk [k] ++ "')"⟩]
  else
    []

/-- `GLSLGenerator::RegisterIndex`: `std::stoi(registerName.substr(1))`,
modelled on the textual level as dropping the kind character. -/
def registerIndexText (registerName : String) : String :=
  String.mk (registerName.data.drop 1)

/-- `GLSLGenerator::BRegister`: validate the `b` kind prefix and return
the remaining slot text. -/
def bRegister (registerName : String) : List Diag × String :=
  (validateRegisterPfx registerName 'b', String.mk (registerName.data.drop 1))

/-- `GLSLGenerator::TRegister`: validate the `t` kind prefix and return
the remaining slot text. -/
def tRegister (registerName : String) : List Diag × String :=
  (validateRegisterPfx registerName 't', String.mk (registerName.data.drop 1))

/-- `GLSLGenerator::SRegister`: validate the `s` kind prefix and return
the remaining slot text. -/
def sRegister (registerName : String) : List Diag × String :=
  (validateRegisterPfx registerName 's', String.mk (registerName.data.drop 1))

/-- `GLSLGenerator::URegister`: validate the `u` kind prefix and return
the remaining slot text. -/
def uRegister (registerName : String) : List Diag × String :=
  (validateRegisterPfx registerName 'u', String.mk (registerName.data.drop 1))

/-! ### Enumerations of the data model -/

/-- The shader stage being generated (`ShaderTarget`). -/
inductive ShaderTarget where
  | VertexShader
  | FragmentShader
  | ComputeShader
  | GeometryShader
  | TessControlShader
  | TessEvaluationShader
deriving DecidableEq, Repr

/-- Modelled from the spec: `TargetToString` renders the target name for
the file-header comment (section 4.E, emission prologue step 1). -/
def TargetToString : ShaderTarget → String
  | .VertexShader => "Vertex Shader"
  | .FragmentShader => "Fragment Shader"
  | .ComputeShader => "Compute Shader"
  | .GeometryShader => "Geometry Shader"
  | .TessControlShader => "Tessellation Control Shader"
  | .TessEvaluationShader => "Tessellation Evaluation Shader"

/-- The target GLSL version enumerant (`OutputShaderVersion`): one of the
released GLSL version numbers 110 .. 450 (spec section 6). -/
inductive OutputShaderVersion where
  | GLSL110 | GLSL120 | GLSL130 | GLSL140 | GLSL150 | GLSL330
  | GLSL400 | GLSL410 | GLSL420 | GLSL430 | GLSL440 | GLSL450
deriving DecidableEq, Repr

/-- The integer value of the version enumerant
(`static_cast<int>(versionOut_)`). -/
def OutputShaderVersion.toInt : OutputShaderVersion → Nat
  | .GLSL110 => 110
  | .GLSL120 => 120
  | .GLSL130 => 130
  | .GLSL140 => 140
  | .GLSL150 => 150
  | .GLSL330 => 330
  | .GLSL400 => 400
  | .GLSL410 => 410
  | .GLSL420 => 420
  | .GLSL430 => 430
  | .GLSL440 => 440
  | .GLSL450 => 450

/-- The decimal text of a version enumerant, used after `#version`. -/
def OutputShaderVersion.numberText (v : OutputShaderVersion) : String :=
  toString v.toInt

/-- Scalar/vector/matrix data types (`DataType`); a representative
selection of the enumerants that the keyword table maps. -/
inductive DataType where
  | boolT | intT | uintT | floatT | doubleT
  | float2 | float3 | float4
  | double2 | double3 | double4
  | int2 | int3 | int4
  | float4x4
deriving DecidableEq, Repr

/-- `DoubleToFloatDataType`: demote double types to their float
counterparts.  Modelled from the spec, section 4.E: "double* demoted to
float* when target < GLSL 4.00". -/
def DoubleToFloatDataType : DataType → DataType
  | .doubleT => .floatT
  | .double2 => .float2
  | .double3 => .float3
  | .double4 => .float4
  | dt => dt

/-- Modelled from the spec: the static (data-type → GLSL keyword) table
of `GLSLKeywords` (section 4.E, type denoters). -/
def DataTypeToGLSLKeyword : DataType → Option String
  | .boolT => some "bool"
  | .intT => some "int"
  | .uintT => some "uint"
  | .floatT => some "float"
  | .doubleT => some "double"
  | .float2 => some "vec2"
  | .float3 => some "vec3"
  | .float4 => some "vec4"
  | .double2 => some "dvec2"
  | .double3 => some "dvec3"
  | .double4 => some "dvec4"
  | .int2 => some "ivec2"
  | .int3 => some "ivec3"
  | .int4 => some "ivec4"
  | .float4x4 => some "mat4"

/-- HLSL texture/buffer object kinds (`BufferType`); a representative
selection. -/
inductive BufferType where
  | Undefined
  | Texture1D
  | Texture2D
  | Texture3D
  | TextureCube
  | Texture2DArray
deriving DecidableEq, Repr

/-- Modelled from the spec: the static (texture type → GLSL sampler
keyword) table of `GLSLKeywords` (section 4.E: "texture → sampler
keyword"). -/
def BufferTypeToGLSLKeyword : BufferType → Option String
  | .Undefined => none
  | .Texture1D => some "sampler1D"
  | .Texture2D => some "sampler2D"
  | .Texture3D => some "sampler3D"
  | .TextureCube => some "samplerCube"
  | .Texture2DArray => some "sampler2DArray"

/-- Intrinsic function tags on call nodes (`Intrinsic`); the generator
special-cases `Mul`, `Rcp` and the interlocked atomics and sends every
other tagged intrinsic through the keyword table. -/
inductive Intrinsic where
  | Undefined
  | Clip
  | Mul
  | Rcp
  | InterlockedAdd
  | InterlockedAnd
  | InterlockedExchange
  | InterlockedMax
  | InterlockedMin
  | InterlockedOr
  | InterlockedXor
  | Dot
  | Normalize
  | Sin
  | Cos
deriving DecidableEq, Repr

/-- The test `intrinsic >= Intrinsic::InterlockedAdd && intrinsic <=
Intrinsic::InterlockedXor` of the visitor dispatch: true exactly for the
interlocked atomic intrinsics (a contiguous enum range in the source). -/
def Intrinsic.isInterlocked : Intrinsic → Bool
  | .InterlockedAdd => true
  | .InterlockedAnd => true
  | .InterlockedExchange => true
  | .InterlockedMax => true
  | .InterlockedMin => true
  | .InterlockedOr => true
  | .InterlockedXor => true
  | _ => false

/-- Modelled from the spec: the static (intrinsic-enum → GLSL keyword)
table of `GLSLIntrinsics` (section 4.E: "All other intrinsics map
through a static table"). -/
def IntrinsicToGLSLKeyword : Intrinsic → Option String
  | .Undefined => none
  | .Clip => some "clip"
  | .Mul => none
  | .Rcp => none
  | .InterlockedAdd => some "atomicAdd"
  | .InterlockedAnd => some "atomicAnd"
  | .InterlockedExchange => some "atomicExchange"
  | .InterlockedMax => some "atomicMax"
  | .InterlockedMin => some "atomicMin"
  | .InterlockedOr => some "atomicOr"
  | .InterlockedXor => some "atomicXor"
  | .Dot => some "dot"
  | .Normalize => some "normalize"
  | .Sin => some "sin"
  | .Cos => some "cos"

/-- Modelled from the spec: `StorageClassToGLSLKeyword` of
`GLSLKeywords` maps HLSL storage classes / interpolation modifiers to
GLSL keywords; unmappable classes yield `none` (section 4.E, variable
declaration statements). -/
def StorageClassToGLSLKeyword : String → Option String
  | "static" => some "static"
  | "groupshared" => some "shared"
  | "nointerpolation" => some "flat"
  | "linear" => some "smooth"
  | _ => none

/-- An HLSL semantic annotation (spec glossary): a name such as
`POSITION` or `SV_Position` plus its index. -/
structure Semantic where
  name : String
  index : Nat
deriving DecidableEq, Repr

/-- Modelled from the spec: a semantic is valid when present
(non-empty name). -/
def Semantic.IsValid (s : Semantic) : Bool := !s.name.isEmpty

/-- Modelled from the spec: system-value semantics are the `SV_*`
semantics (glossary). -/
def Semantic.IsSystemValue (s : Semantic) : Bool := s.name.startsWith "SV_"

/-- Modelled from the spec: the (system-value semantic → GLSL built-in)
table of `GLSLKeywords` ("map to GLSL built-ins like gl_Position"). -/
def SemanticToGLSLKeyword (s : Semantic) : Option String :=
  if s.name = "SV_Position" then some "gl_Position"
  else if s.name = "SV_Target" then some "gl_FragColor"
  else if s.name = "SV_Depth" then some "gl_FragDepth"
  else if s.name = "SV_VertexID" then some "gl_VertexID"
  else if s.name = "SV_InstanceID" then some "gl_InstanceID"
  else none

/-- A slot register (spec section 3: `(kind ∈ {b,t,s,u}, slot-index)`
tuple, carried in a target-conditional list on declarations). -/
structure Register where
  kind : Char
  slot : Nat
  target : Option ShaderTarget
deriving DecidableEq, Repr

/-- Modelled from the spec: `Register::GetForTarget` picks the first
slot register of the list that applies to the given target (registers
without a target restriction apply to every target). -/
def Register.GetForTarget (regs : List Register) (t : ShaderTarget) : Option Register :=
  regs.find? (fun r => r.target = none || r.target = some t)

/-! ### Expression-level AST

One mutual block for the expression sub-language: type denoters,
variable identifier chains, function calls and expressions
(`TypeDenoter.h` / `AST.h`).  Binary, unary and assignment operators are
carried in their GLSL textual form; the enum-to-string tables
(`BinaryOpToString` etc.) live outside the given source file and map
each operator to its GLSL counterpart (spec section 4.E), so the
identity on the textual form is their faithful image.  Back-references
(`symbolRef`, `textureDeclRef`) are flattened to the data the generator
reads through them.  The scalar-swizzle suffix expressions are outside
the scope of this embedding. -/

mutual

/-- Type denoters (spec section 3: a tagged union of void, base, array,
struct, texture and alias types). -/
inductive TypeDenoter where
  | voidT : TypeDenoter
  | base : DataType → TypeDenoter
  | texture : BufferType → TypeDenoter
  | structT : String → TypeDenoter
  | aliasT : String → TypeDenoter → TypeDenoter
  | array : TypeDenoter → List Expr → TypeDenoter

/-- A variable identifier chain node (spec section 3: `(ident,
array-indices, optional-next)`; `symbolIdent` is the identifier of the
possibly-renamed declaration reached through the symbol back-reference,
when that reference points to a variable declaration). -/
inductive VarIdent where
  | mk : String → Option String → List Expr → Option VarIdent → VarIdent

/-- A function call node: callee identifier chain or type denoter
(constructor call), intrinsic tag and argument list. -/
inductive FunctionCall where
  | mk : Option VarIdent → Option TypeDenoter → Intrinsic → List Expr → FunctionCall

/-- Expression nodes, one constructor per `Visit...Expr` case of the
generator. -/
inductive Expr where
  | ListExpr : Expr → Expr → Expr
  | LiteralExpr : String → Expr
  | TypeNameExpr : TypeDenoter → Expr
  | TernaryExpr : Expr → Expr → Expr → Expr
  | BinaryExpr : Expr → String → Expr → Expr
  | UnaryExpr : String → Expr → Expr
  | PostUnaryExpr : Expr → String → Expr
  | FunctionCallExpr : FunctionCall → Expr
  | BracketExpr : Expr → Expr
  | ArrayAccessExpr : Expr → List Expr → Expr
  | CastExpr : Expr → Expr → Expr
  | VarAccessExpr : VarIdent → Option (String × Expr) → Expr
  | InitializerExpr : List Expr → Expr

end

/-- The AST kind tags relevant to expressions (`AST::Types`), as
returned by the virtual `Type()` query. -/
inductive ASTClass where
  | ListExpr | LiteralExpr | TypeNameExpr | TernaryExpr | BinaryExpr
  | UnaryExpr | PostUnaryExpr | FunctionCallExpr | BracketExpr
  | ArrayAccessExpr | CastExpr | VarAccessExpr | InitializerExpr
deriving DecidableEq, Repr

/-- `Expr::Type()`: the dynamic AST kind of an expression node. -/
def Expr.astClass : Expr → ASTClass
  | .ListExpr _ _ => .ListExpr
  | .LiteralExpr _ => .LiteralExpr
  | .TypeNameExpr _ => .TypeNameExpr
  | .TernaryExpr _ _ _ => .TernaryExpr
  | .BinaryExpr _ _ _ => .BinaryExpr
  | .UnaryExpr _ _ => .UnaryExpr
  | .PostUnaryExpr _ _ => .PostUnaryExpr
  | .FunctionCallExpr _ => .FunctionCallExpr
  | .BracketExpr _ => .BracketExpr
  | .ArrayAccessExpr _ _ => .ArrayAccessExpr
  | .CastExpr _ _ => .CastExpr
  | .VarAccessExpr _ _ => .VarAccessExpr
  | .InitializerExpr _ => .InitializerExpr

/-- The textual identifier of a `VarIdent` node. -/
def VarIdent.ident : VarIdent → String
  | .mk i _ _ _ => i

/-- The flattened symbol back-reference of a `VarIdent` node: the
current identifier of the referenced variable declaration, if any. -/
def VarIdent.symbolIdent : VarIdent → Option String
  | .mk _ s _ _ => s

/-- The array index expressions of a `VarIdent` node. -/
def VarIdent.arrayIndices : VarIdent → List Expr
  | .mk _ _ a _ => a

/-- The next node of a `VarIdent` chain. -/
def VarIdent.next : VarIdent → Option VarIdent
  | .mk _ _ _ n => n

/-- `VarIdent::LastVarIdent`'s identifier, used in error messages. -/
def VarIdent.lastIdent : VarIdent → String
  | .mk i _ _ none => i
  | .mk _ _ _ (some n) => n.lastIdent

/-- The callee identifier chain of a function call. -/
def FunctionCall.varIdent : FunctionCall → Option VarIdent
  | .mk v _ _ _ => v

/-- The constructor type denoter of a function call. -/
def FunctionCall.typeDenoter : FunctionCall → Option TypeDenoter
  | .mk _ t _ _ => t

/-- The intrinsic tag of a function call. -/
def FunctionCall.intrinsic : FunctionCall → Intrinsic
  | .mk _ _ i _ => i

/-- The argument list of a function call. -/
def FunctionCall.arguments : FunctionCall → List Expr
  | .mk _ _ _ a => a

/-- `TypeDenoter::Get`: resolve alias type denoters to their target
(spec section 3: the `GetAliased` query). -/
def TypeDenoter.Get : TypeDenoter → TypeDenoter
  | .aliasT _ t => t.Get
  | t => t

/-- `TypeDenoter::IsVoid`. -/
def TypeDenoter.IsVoid : TypeDenoter → Bool
  | .voidT => true
  | _ => false

/-- `TypeDenoter::IsBase`. -/
def TypeDenoter.IsBase : TypeDenoter → Bool
  | .base _ => true
  | _ => false

/-- `TypeDenoter::IsStruct`. -/
def TypeDenoter.IsStruct : TypeDenoter → Bool
  | .structT _ => true
  | _ => false

/-- `TypeDenoter::IsAlias`. -/
def TypeDenoter.IsAlias : TypeDenoter → Bool
  | .aliasT _ _ => true
  | _ => false

/-! ### Statement-level AST -/

mutual

/-- Statement nodes, one constructor per `Visit...Stmnt` case of the
generator.  Return statements carry the `isEndOfFunction` flag set by
the control-path analyzer; expression statements carry their source row
(every AST node has a source area, but only the row fields actually read
by the generator are kept on the other nodes). -/
inductive Stmnt where
  | NullStmnt : Stmnt
  | CodeBlockStmnt : List Stmnt → Stmnt
  | ForLoopStmnt : Stmnt → Option Expr → Option Expr → Stmnt → Stmnt
  | WhileLoopStmnt : Expr → Stmnt → Stmnt
  | DoWhileLoopStmnt : Stmnt → Expr → Stmnt
  | IfStmnt : Expr → Stmnt → Option Stmnt → Stmnt
  | SwitchStmnt : Expr → List SwitchCase → Stmnt
  | ExprStmnt : Nat → Expr → Stmnt
  | ReturnStmnt : Option Expr → Bool → Stmnt
  | CtrlTransferStmnt : String → Stmnt
  | VarDeclStmntS : VarDeclStmnt → Stmnt

/-- A `case`/`default` block of a switch statement (`SwitchCase`):
optional case expression plus statement list. -/
inductive SwitchCase where
  | mk : Option Expr → List Stmnt → SwitchCase

/-- A single variable declarator (`VarDecl`): identifier, array
dimensions, optional initializer, semantic, the `disable-code-gen` flag
and (flattening the `declStmntRef` back-reference) the variable type of
its declaration statement. -/
inductive VarDecl where
  | mk : String → List Expr → Option Expr → Semantic → Bool → VarType → VarDecl

/-- A variable type (`VarType`): either an inline structure declaration
or a type denoter. -/
inductive VarType where
  | mk : Option StructDecl → TypeDenoter → VarType

/-- A variable declaration statement (`VarDeclStmnt`): shader
input/output flags, storage classes, type modifiers, input modifier (for
parameters), the variable type and the declarator list. -/
inductive VarDeclStmnt where
  | mk : Bool → Bool → List String → List String → String → VarType → List VarDecl → VarDeclStmnt

/-- A structure declaration (`StructDecl`): identifier, interface-block
alias name, the `nested-struct` / `shader-input` / `shader-output` /
`reachable` flags, member declarations, the nested structure
back-references (child structures owned by this declaration) and the
base structure back-reference. -/
inductive StructDecl where
  | mk : String → String → Bool → Bool → Bool → Bool → List VarDeclStmnt →
      List StructDecl → Option StructDecl → StructDecl

end

/-- The identifier of a structure declaration. -/
def StructDecl.ident : StructDecl → String
  | .mk i _ _ _ _ _ _ _ _ => i

/-- The interface-block alias name of a structure declaration. -/
def StructDecl.aliasName : StructDecl → String
  | .mk _ a _ _ _ _ _ _ _ => a

/-- The `nested-struct` flag. -/
def StructDecl.isNestedStruct : StructDecl → Bool
  | .mk _ _ n _ _ _ _ _ _ => n

/-- The `shader-input` flag. -/
def StructDecl.isShaderInput : StructDecl → Bool
  | .mk _ _ _ i _ _ _ _ _ => i

/-- The `shader-output` flag. -/
def StructDecl.isShaderOutput : StructDecl → Bool
  | .mk _ _ _ _ o _ _ _ _ => o

/-- The `reachable` flag. -/
def StructDecl.isReachable : StructDecl → Bool
  | .mk _ _ _ _ _ r _ _ _ => r

/-- The member declarations. -/
def StructDecl.members : StructDecl → List VarDeclStmnt
  | .mk _ _ _ _ _ _ m _ _ => m

/-- The nested structure declarations. -/
def StructDecl.nestedStructDeclRefs : StructDecl → List StructDecl
  | .mk _ _ _ _ _ _ _ n _ => n

/-- The base structure back-reference. -/
def StructDecl.baseStructRef : StructDecl → Option StructDecl
  | .mk _ _ _ _ _ _ _ _ b => b

/-- `StructDecl::IsAnonymous`: no identifier. -/
def StructDecl.IsAnonymous (s : StructDecl) : Bool := s.ident.isEmpty

/-- The identifier of a variable declarator. -/
def VarDecl.ident : VarDecl → String
  | .mk i _ _ _ _ _ => i

/-- The array dimension expressions of a variable declarator. -/
def VarDecl.arrayDims : VarDecl → List Expr
  | .mk _ a _ _ _ _ => a

/-- The optional initializer expression. -/
def VarDecl.initializer : VarDecl → Option Expr
  | .mk _ _ i _ _ _ => i

/-- The semantic annotation. -/
def VarDecl.semantic : VarDecl → Semantic
  | .mk _ _ _ s _ _ => s

/-- The `disable-code-gen` flag. -/
def VarDecl.disableCodeGen : VarDecl → Bool
  | .mk _ _ _ _ d _ => d

/-- The variable type of the declaration statement this declarator
belongs to (the `declStmntRef->varType` back-reference, flattened). -/
def VarDecl.declStmntVarType : VarDecl → VarType
  | .mk _ _ _ _ _ t => t

/-- The inline structure declaration of a variable type. -/
def VarType.structDecl : VarType → Option StructDecl
  | .mk s _ => s

/-- The type denoter of a variable type. -/
def VarType.typeDenoter : VarType → TypeDenoter
  | .mk _ t => t

/-- The `shader-input` flag of a variable declaration statement. -/
def VarDeclStmnt.isShaderInput : VarDeclStmnt → Bool
  | .mk i _ _ _ _ _ _ => i

/-- The `shader-output` flag of a variable declaration statement. -/
def VarDeclStmnt.isShaderOutput : VarDeclStmnt → Bool
  | .mk _ o _ _ _ _ _ => o

/-- The storage classes and interpolation modifiers. -/
def VarDeclStmnt.storageClasses : VarDeclStmnt → List String
  | .mk _ _ s _ _ _ _ => s

/-- The type modifiers (such as `const`). -/
def VarDeclStmnt.typeModifiers : VarDeclStmnt → List String
  | .mk _ _ _ t _ _ _ => t

/-- The input modifier of a parameter declaration (such as `inout`). -/
def VarDeclStmnt.inputModifier : VarDeclStmnt → String
  | .mk _ _ _ _ i _ _ => i

/-- The variable type. -/
def VarDeclStmnt.varType : VarDeclStmnt → VarType
  | .mk _ _ _ _ _ v _ => v

/-- The declarator list. -/
def VarDeclStmnt.varDecls : VarDeclStmnt → List VarDecl
  | .mk _ _ _ _ _ _ d => d

/-- `Stmnt::Type() == AST::Types::ReturnStmnt`, the query used at the
end of the entry-point body. -/
def Stmnt.isReturnStmnt : Stmnt → Bool
  | .ReturnStmnt _ _ => true
  | _ => false

/-- `Stmnt::Type() == AST::Types::IfStmnt`, the query used by the else
statement visitor. -/
def Stmnt.isIfStmnt : Stmnt → Bool
  | .IfStmnt _ _ _ => true
  | _ => false

/-- `Stmnt::Type() == AST::Types::CodeBlockStmnt`, the query used by
`WriteScopedStmnt`. -/
def Stmnt.isCodeBlockStmnt : Stmnt → Bool
  | .CodeBlockStmnt _ => true
  | _ => false

/-! ### Declaration-level AST and the program -/

/-- An attribute on the entry point (`Attribute`), such as
`numthreads(8,8,1)`. -/
structure Attrib where
  ident : String
  arguments : List Expr

/-- The input or output semantic bucket of the entry point (spec
section 3: partitioned into user-defined `varDeclRefs` and system-value
`varDeclRefsSV`). -/
structure SemanticBuckets where
  varDeclRefs : List VarDecl
  varDeclRefsSV : List VarDecl

/-- A function declaration (`FunctionDecl`) with the flags and
annotations the generator reads. -/
structure FunctionDecl where
  ident : String
  areaRow : Nat
  returnType : VarType
  parameters : List VarDeclStmnt
  codeBlock : Option (List Stmnt)
  attribs : List Attrib
  semantic : Semantic
  inputSemantics : SemanticBuckets
  outputSemantics : SemanticBuckets
  isReachable : Bool
  hasNonReturnControlPath : Bool
  isEntryPoint : Bool

/-- A uniform buffer declaration statement (`BufferDeclStmnt`). -/
structure BufferDeclStmnt where
  ident : String
  areaRow : Nat
  slotRegisters : List Register
  members : List VarDeclStmnt
  isReachable : Bool

/-- A single texture declarator (`TextureDecl`). -/
structure TextureDecl where
  ident : String
  slotRegisters : List Register
  isReachable : Bool

/-- A texture declaration statement (`TextureDeclStmnt`). -/
structure TextureDeclStmnt where
  textureType : BufferType
  textureDecls : List TextureDecl
  isReachable : Bool

/-- A structure declaration statement (`StructDeclStmnt`). -/
structure StructDeclStmnt where
  areaRow : Nat
  structDecl : StructDecl

/-- A type-alias declaration statement (`AliasDeclStmnt`); the generator
only emits its optional structure declaration. -/
structure AliasDeclStmnt where
  areaRow : Nat
  structDecl : Option StructDecl

/-- A global declaration statement of the program. -/
inductive GlobalStmnt where
  | funcDecl : FunctionDecl → GlobalStmnt
  | bufferDecl : BufferDeclStmnt → GlobalStmnt
  | textureDecl : TextureDeclStmnt → GlobalStmnt
  | structDeclStmnt : StructDeclStmnt → GlobalStmnt
  | aliasDecl : AliasDeclStmnt → GlobalStmnt
  | varDecl : VarDeclStmnt → GlobalStmnt

/-- The program root node (spec section 3): global declarations, the
entry-point reference, the used-intrinsics set and the
shader-model-3 screen-space flag read for the `gl_FragCoord` layout. -/
structure Program where
  globalStmnts : List GlobalStmnt
  entryPointRef : Option FunctionDecl
  usedIntrinsics : List Intrinsic
  hasSM3ScreenSpace : Bool

/-! ### Generator environment -/

/-- The read-only data that the statement and expression visitors
consult: target, version, the statistics switch, the resolved type
denoters of the front-end (spec section 6 input contract: "every
expression node has a resolvable type denoter", modelled as a query
function) and the program (for `GetProgram()`). -/
structure CoreEnv where
  shaderTarget : ShaderTarget
  versionOut : OutputShaderVersion
  statsEnabled : Bool
  typeOf : Expr → TypeDenoter
  program : Program

/-- `GLSLGenerator::IsVersionOut`:
`static_cast<int>(versionOut_) >= version`. -/
def CoreEnv.IsVersionOut (core : CoreEnv) (version : Nat) : Bool :=
  core.versionOut.toInt ≥ version

/-- Modelled from the spec: `MustResolveStructForTarget` of `GLSLHelper`
decides whether a structure must be flattened for the target stage
(section 4.B.3: input/output structures at the stage boundary are
resolved). -/
def MustResolveStructForTarget (t : ShaderTarget) (s : StructDecl) : Bool :=
  (s.isShaderInput && t == ShaderTarget.VertexShader) ||
  (s.isShaderOutput && t == ShaderTarget.FragmentShader)

/-! ### Expression emission (lines 301-335, 822-937, 1160-1450) -/

/-- `GLSLGenerator::WriteDataType` (lines 1250-1261): demote doubles
below GLSL 4.00, then map through the keyword table. -/
def WriteDataType (v : OutputShaderVersion) (dataType : DataType) : Delta :=
  let dataType := if v.toInt < 400 then DoubleToFloatDataType dataType else dataType
  match DataTypeToGLSLKeyword dataType with
  | some keyword => wr keyword
  | none => errorD "failed to map data type to GLSL keyword"

/-- `GLSLGenerator::FinalIdentFromVarIdent` (lines 1162-1173): use the
current identifier of the referenced variable declaration when the
symbol back-reference resolves to one, else the node's own text. -/
def FinalIdentFromVarIdent : VarIdent → String
  | .mk ident symbolIdent _ _ => symbolIdent.getD ident

/-- `VarIdent::ToString`: the dotted identifier chain, used in error
messages (declared in the AST header outside this source file; modelled
from its use). -/
def VarIdent.toStringChain : VarIdent → String
  | .mk i _ _ none => i
  | .mk i _ _ (some n) => i ++ "." ++ n.toStringChain

/-- `GLSLGenerator::AssertIntrinsicNumArgs` (lines 1326-1330). -/
def AssertIntrinsicNumArgs (arguments : List Expr) (numArgsMin numArgsMax : Nat) : Delta :=
  if arguments.length < numArgsMin || numArgsMax < arguments.length then
    errorD "invalid number of arguments in intrinsic"
  else
    Delta.nil

/-- The condition of the `WriteMulArgument` lambda (lines 1377-1392):
extra brackets for ternary, binary, unary and post-unary argument
expressions. -/
def mulArgumentNeedsBrackets (e : Expr) : Bool :=
  e.astClass == ASTClass.TernaryExpr || e.astClass == ASTClass.BinaryExpr ||
  e.astClass == ASTClass.UnaryExpr || e.astClass == ASTClass.PostUnaryExpr

mutual

/-- `GLSLGenerator::WriteTypeDenoter` (lines 1263-1322).  The texture
case resolves `BufferType::Undefined` through the texture declaration
back-reference; the embedding carries the resolved texture type, so a
remaining `Undefined` is the missing-reference error. -/
def WriteTypeDenoter (core : CoreEnv) : TypeDenoter → Delta
  | .voidT => wr "void"
  | .base dataType => WriteDataType core.versionOut dataType
  | .texture textureType =>
      if textureType == BufferType.Undefined then
        errorD "missing reference to texture type denoter"
      else
        match BufferTypeToGLSLKeyword textureType with
        | some keyword => wr keyword
        | none => errorD "failed to map texture type to GLSL keyword"
  | .structT ident => wr ident
  | .aliasT _ aliased => WriteTypeDenoter core aliased
  | .array baseTypeDen arrayDims =>
      WriteTypeDenoter core baseTypeDen ++ WriteArrayDims core arrayDims
termination_by t => (sizeOf t, 0)

/-- `GLSLGenerator::WriteArrayDims` (lines 1558-1566). -/
def WriteArrayDims (core : CoreEnv) : List Expr → Delta
  | [] => Delta.nil
  | dim :: rest => wr "[" ++ VisitExpr core dim ++ wr "]" ++ WriteArrayDims core rest
termination_by dims => (sizeOf dims, 0)

/-- `GLSLGenerator::WriteVarIdent` (lines 1175-1188). -/
def WriteVarIdent (core : CoreEnv) (recursive : Bool) : VarIdent → Delta
  | .mk ident symbolIdent arrayIndices next =>
      wr (FinalIdentFromVarIdent (.mk ident symbolIdent arrayIndices next)) ++
      WriteArrayDims core arrayIndices ++
      (if recursive then
        match next with
        | some n => wr "." ++ WriteVarIdent core true n
        | none => Delta.nil
      else Delta.nil)
termination_by vi => (sizeOf vi, 0)

/-- The `VisitFunctionCall` dispatch (lines 301-311). -/
def VisitFunctionCall (core : CoreEnv) : FunctionCall → Delta
  | .mk varIdent typeDen intrinsic arguments =>
      if intrinsic = Intrinsic.Mul then
        WriteFunctionCallIntrinsicMul core (.mk varIdent typeDen intrinsic arguments)
      else if intrinsic = Intrinsic.Rcp then
        WriteFunctionCallIntrinsicRcp core (.mk varIdent typeDen intrinsic arguments)
      else if intrinsic.isInterlocked then
        WriteFunctionCallIntrinsicAtomic core (.mk varIdent typeDen intrinsic arguments)
      else
        WriteFunctionCallStandard core (.mk varIdent typeDen intrinsic arguments)
termination_by fc => (sizeOf fc, 1)

/-- `GLSLGenerator::WriteFunctionCallIntrinsicMul` (lines 1373-1402):
convert `mul(a, b)` into `(a * b)` with extra brackets around ternary,
binary, unary and post-unary arguments.  With a wrong argument count the
error report aborts the subtree. -/
def WriteFunctionCallIntrinsicMul (core : CoreEnv) : FunctionCall → Delta
  | .mk _ _ _ arguments =>
      AssertIntrinsicNumArgs arguments 2 2 ++
      match arguments with
      | [a, b] =>
          wr "(" ++
          (if mulArgumentNeedsBrackets a then wr "(" ++ VisitExpr core a ++ wr ")"
           else VisitExpr core a) ++
          wr " * " ++
          (if mulArgumentNeedsBrackets b then wr "(" ++ VisitExpr core b ++ wr ")"
           else VisitExpr core b) ++
          wr ")"
      | _ => Delta.nil
termination_by fc => (sizeOf fc, 0)

/-- `GLSLGenerator::WriteFunctionCallIntrinsicRcp` (lines 1404-1425):
convert `rcp(x)` into `(TYPE(1) / (x))` when the resolved type denoter
of `x` is a base type (for which `WriteTypeDenoter` is exactly
`WriteDataType`); otherwise report an error. -/
def WriteFunctionCallIntrinsicRcp (core : CoreEnv) : FunctionCall → Delta
  | .mk _ _ _ arguments =>
      AssertIntrinsicNumArgs arguments 1 1 ++
      match arguments with
      | [x] =>
          match (core.typeOf x).Get with
          | .base dataType =>
              wr "(" ++ WriteDataType core.versionOut dataType ++ wr "(1) / (" ++
              VisitExpr core x ++ wr "))"
          | _ => errorD "invalid argument type for intrinsic 'rcp'"
      | _ => Delta.nil
termination_by fc => (sizeOf fc, 0)

/-- `GLSLGenerator::WriteFunctionCallIntrinsicAtomic` (lines 1427-1450):
`[arg2 = ] atomicX(arg0, arg1)`.  With fewer than two arguments the
error report aborts the subtree. -/
def WriteFunctionCallIntrinsicAtomic (core : CoreEnv) : FunctionCall → Delta
  | .mk varIdent _ intrinsic arguments =>
      AssertIntrinsicNumArgs arguments 2 3 ++
      match IntrinsicToGLSLKeyword intrinsic with
      | some keyword =>
          (match arguments with
           | a0 :: a1 :: rest =>
               (match rest with
                | a2 :: _ => VisitExpr core a2 ++ wr " = "
                | [] => Delta.nil) ++
               wr (keyword ++ "(") ++ VisitExpr core a0 ++ wr ", " ++
               VisitExpr core a1 ++ wr ")"
           | _ => Delta.nil)
      | none =>
          errorD ("failed to map intrinsic '" ++
            (match varIdent with
             | some v => v.toStringChain
             | none => "") ++ "' to GLSL keyword")
termination_by fc => (sizeOf fc, 0)

/-- `GLSLGenerator::WriteFunctionCallStandard` (lines 1332-1371). -/
def WriteFunctionCallStandard (core : CoreEnv) : FunctionCall → Delta
  | .mk varIdent typeDen intrinsic arguments =>
      (match varIdent with
       | some v =>
           if intrinsic != Intrinsic.Undefined then
             match IntrinsicToGLSLKeyword intrinsic with
             | some keyword => wr keyword
             | none =>
                 errorD ("failed to map intrinsic '" ++ v.lastIdent ++ "' to GLSL keyword")
           else
             WriteVarIdent core true v
       | none =>
           match typeDen with
           | some t => WriteTypeDenoter core t
           | none => errorD "missing function name") ++
      wr "(" ++ VisitExprListSep core arguments ++ wr ")"
termination_by fc => (sizeOf fc, 0)

/-- The comma-separated argument loop shared by the call and initializer
visitors (`Write(", ")` between successive elements). -/
def VisitExprListSep (core : CoreEnv) : List Expr → Delta
  | [] => Delta.nil
  | [e] => VisitExpr core e
  | e :: rest => VisitExpr core e ++ wr ", " ++ VisitExprListSep core rest
termination_by es => (sizeOf es, 0)

/-- The expression visitors (lines 824-935), one case per
`Visit...Expr`. -/
def VisitExpr (core : CoreEnv) : Expr → Delta
  | .ListExpr firstExpr nextExpr =>
      VisitExpr core firstExpr ++ wr ", " ++ VisitExpr core nextExpr
  | .LiteralExpr value => wr value
  | .TypeNameExpr typeDen => WriteTypeDenoter core typeDen
  | .TernaryExpr condExpr thenExpr elseExpr =>
      VisitExpr core condExpr ++ wr " ? " ++ VisitExpr core thenExpr ++
      wr " : " ++ VisitExpr core elseExpr
  | .BinaryExpr lhsExpr op rhsExpr =>
      VisitExpr core lhsExpr ++ wr (" " ++ op ++ " ") ++ VisitExpr core rhsExpr
  | .UnaryExpr op e => wr op ++ VisitExpr core e
  | .PostUnaryExpr e op => VisitExpr core e ++ wr op
  | .FunctionCallExpr call => VisitFunctionCall core call
  | .BracketExpr e => wr "(" ++ VisitExpr core e ++ wr ")"
  | .ArrayAccessExpr e arrayIndices => VisitExpr core e ++ WriteArrayDims core arrayIndices
  | .CastExpr typeExpr e =>
      VisitExpr core typeExpr ++ wr "(" ++ VisitExpr core e ++ wr ")"
  | .VarAccessExpr varIdent assign =>
      WriteVarIdent core true varIdent ++
      (match assign with
       | some (assignOp, assignExpr) =>
           wr (" " ++ assignOp ++ " ") ++ VisitExpr core assignExpr
       | none => Delta.nil)
  | .InitializerExpr exprs => wr "\x7b " ++ VisitExprListSep core exprs ++ wr " \x7d"
termination_by e => (sizeOf e, 0)

end

/-! ### Variable and structure declaration emission
(lines 183-193, 339-386, 542-654, 1452-1516) -/

/-- `GLSLGenerator::OpenScope` (lines 183-187) as the opening line; the
indentation increase is realized by emitting the scope body under
`incIndent`. -/
def openScopeLn (c : Ctx) : Delta := writeLn c "\x7b"

/-- `GLSLGenerator::CloseScope` (lines 189-193). -/
def closeScopeLn (c : Ctx) (semicolon : Bool) : Delta :=
  writeLn c (if semicolon then "\x7d;" else "\x7d")

/-- The `VisitVarDecl` visitor (lines 354-364). -/
def VisitVarDecl (core : CoreEnv) : VarDecl → Delta
  | .mk ident arrayDims initializer _ _ _ =>
      wr ident ++
      WriteArrayDims core arrayDims ++
      (match initializer with
       | some i => wr " = " ++ VisitExpr core i
       | none => Delta.nil)

/-- The comma-separated declarator loop of `VisitVarDeclStmnt`. -/
def VisitVarDeclListSep (core : CoreEnv) : List VarDecl → Delta
  | [] => Delta.nil
  | [d] => VisitVarDecl core d
  | d :: rest => VisitVarDecl core d ++ wr ", " ++ VisitVarDeclListSep core rest

/-- The storage-class loop of `VisitVarDeclStmnt` (lines 601-609). -/
def writeStorageClasses : List String → Delta
  | [] => Delta.nil
  | s :: rest =>
      (match StorageClassToGLSLKeyword s with
       | some keyword => wr (keyword ++ " ")
       | none =>
           errorD "not all storage classes or interpolation modifiers can be mapped to GLSL keyword") ++
      writeStorageClasses rest

/-- The type-modifier loop shared by `VisitVarDeclStmnt` and
`WriteParameter` (lines 611-616, 1526-1530): only `const` is kept. -/
def writeConstTypeModifiers : List String → Delta
  | [] => Delta.nil
  | m :: rest =>
      (if m == "const" then wr (m ++ " ") else Delta.nil) ++
      writeConstTypeModifiers rest

/-- The declarator filter of `VisitVarDeclStmnt` (lines 562-591):
declarators with disabled code generation, and system-value declarators
inside an interface block, are dropped. -/
def filterVarDecls (c : Ctx) (varDecls : List VarDecl) : List VarDecl :=
  varDecls.filter
    (fun d => !(d.disableCodeGen || (c.insideInterfaceBlock && d.semantic.IsSystemValue)))

mutual

/-- The `VisitVarDeclStmnt` visitor (lines 558-641). -/
def VisitVarDeclStmnt (core : CoreEnv) (c : Ctx) : VarDeclStmnt → Delta
  | .mk isShaderInput isShaderOutput storageClasses typeModifiers _ varType varDecls =>
      let varDecls := filterVarDecls c varDecls
      if varDecls.isEmpty then
        Delta.nil
      else
        beginLn c ++
        (if isShaderInput then wr "in "
         else if isShaderOutput then wr "out "
         else Delta.nil) ++
        writeStorageClasses storageClasses ++
        writeConstTypeModifiers typeModifiers ++
        (match varType.structDecl with
         | some _ => VisitVarType core c varType ++ beginLn c
         | none => VisitVarType core c varType ++ wr " ") ++
        VisitVarDeclListSep core varDecls ++
        wr ";" ++ endLn c
termination_by v => (sizeOf v, 0)

/-- The member-statement loop (`Visit(ast->members)`). -/
def VisitVarDeclStmntList (core : CoreEnv) (c : Ctx) : List VarDeclStmnt → Delta
  | [] => Delta.nil
  | v :: rest => VisitVarDeclStmnt core c v ++ VisitVarDeclStmntList core c rest
termination_by vs => (sizeOf vs, 0)

/-- The `VisitVarType` visitor (lines 339-345). -/
def VisitVarType (core : CoreEnv) (c : Ctx) : VarType → Delta
  | .mk (some structDecl) _ => VisitStructDecl core c structDecl false
  | .mk none typeDenoter => WriteTypeDenoter core typeDenoter
termination_by vt => (sizeOf vt, 3)

/-- The `VisitStructDecl` visitor (lines 366-386) with the optional
semicolon flag passed through the visitor argument channel. -/
def VisitStructDecl (core : CoreEnv) (c : Ctx) (ast : StructDecl) (semicolon : Bool) : Delta :=
  match ast with
  | .mk ident aliasName isNested isIn isOut reach members nestedRefs baseRef =>
      if !(MustResolveStructForTarget core.shaderTarget
            (.mk ident aliasName isNested isIn isOut reach members nestedRefs baseRef)) then
        (if !isNested then WriteNestedStructDecls core c nestedRefs else Delta.nil) ++
        WriteStructDecl core c (.mk ident aliasName isNested isIn isOut reach members nestedRefs baseRef)
          semicolon false
      else
        Delta.nil
termination_by (sizeOf ast, 2)

/-- The nested-structure loop of `VisitStructDecl` (lines 373-381):
`rbegin`..`rend` emits the nested structures in child-to-parent order,
each followed by a blank line. -/
def WriteNestedStructDecls (core : CoreEnv) (c : Ctx) : List StructDecl → Delta
  | [] => Delta.nil
  | n :: rest =>
      WriteNestedStructDecls core c rest ++
      WriteStructDecl core c n true true ++ blank c
termination_by ns => (sizeOf ns, 0)

/-- `GLSLGenerator::WriteStructDecl` (lines 1454-1509).  The body of a
standard structure is `WriteStructDeclMembers` (lines 1511-1516): base
structure members first (through the base chain), then the own
members. -/
def WriteStructDecl (core : CoreEnv) (c : Ctx) (ast : StructDecl)
    (writeSemicolon allowNestedStruct : Bool) : Delta :=
  match ast with
  | .mk ident aliasName isNested isIn isOut _ members _ baseRef =>
      if !isNested || allowNestedStruct then
        if isIn || isOut then
          beginLn c ++ (if isIn then wr "in " else wr "out ") ++ wr ident ++ endLn c ++
          openScopeLn c ++
          VisitVarDeclStmntList core { incIndent c with insideInterfaceBlock := true } members ++
          closeScopeLn c false ++
          writeLn c (aliasName ++ ";")
        else
          beginLn c ++ wr "struct" ++
          (if !ident.isEmpty then wr (" " ++ ident) else Delta.nil) ++ endLn c ++
          openScopeLn c ++
          (WriteStructDeclBaseMembers core (incIndent c) baseRef ++
           VisitVarDeclStmntList core (incIndent c) members) ++
          closeScopeLn c writeSemicolon
      else if !writeSemicolon then
        beginLn c ++ wr (ident ++ " ")
      else
        Delta.nil
termination_by (sizeOf ast, 1)

/-- The base-structure recursion of `WriteStructDeclMembers` (lines
1511-1516): the members of the base chain, outermost ancestor first. -/
def WriteStructDeclBaseMembers (core : CoreEnv) (c : Ctx) : Option StructDecl → Delta
  | none => Delta.nil
  | some (.mk _ _ _ _ _ _ bMembers _ bBase) =>
      WriteStructDeclBaseMembers core c bBase ++
      VisitVarDeclStmntList core c bMembers
termination_by o => (sizeOf o, 1)

end

/-! ### Output semantic assignments (lines 1115-1158) -/

/-- The system-value assignment loop of
`WriteOutputSemanticsAssignment` (lines 1124-1138): for every
system-value output declaration with a valid semantic that maps to a
GLSL built-in, write `BUILTIN = ident;`. -/
def writeSVOutputAssignments (c : Ctx) : List VarDecl → Delta
  | [] => Delta.nil
  | varDecl :: rest =>
      (if varDecl.semantic.IsValid then
        match SemanticToGLSLKeyword varDecl.semantic with
        | some semanticKeyword =>
            writeLn c (semanticKeyword ++ " = " ++ varDecl.ident ++ ";")
        | none => Delta.nil
      else Delta.nil) ++
      writeSVOutputAssignments c rest

/-- `GLSLGenerator::WriteOutputSemanticsAssignment` (lines 1115-1158).
A missing entry-point reference is the unrecoverable condition of spec
section 7 (modelled as a reported error). -/
def WriteOutputSemanticsAssignment (core : CoreEnv) (c : Ctx) (ast : Option Expr) : Delta :=
  match core.program.entryPointRef with
  | none => errorD "missing entry point reference"
  | some entryPoint =>
      let semantic := entryPoint.semantic
      let varDeclRefs := entryPoint.outputSemantics.varDeclRefsSV
      if !varDeclRefs.isEmpty then
        writeSVOutputAssignments c varDeclRefs
      else if semantic.IsSystemValue && ast.isSome then
        match SemanticToGLSLKeyword semantic with
        | some semanticKeyword =>
            beginLn c ++ wr semanticKeyword ++ wr " = " ++
            (match ast with
             | some e => VisitExpr core e
             | none => Delta.nil) ++ wr ";" ++ endLn c
        | none => errorD "failed to map output semantic to GLSL keyword"
      else if core.shaderTarget != ShaderTarget.ComputeShader then
        errorD "missing output semantic"
      else
        Delta.nil

/-! ### Statement emission (lines 292-335, 656-820) -/

mutual

/-- The statement visitors (lines 658-820), one case per
`Visit...Stmnt`; the if statement dispatches through `VisitIfStmntNode`
with no else parent. -/
def VisitStmnt (core : CoreEnv) (c : Ctx) : Stmnt → Delta
  | .NullStmnt => writeLn c ";"
  | .CodeBlockStmnt stmnts => VisitCodeBlock core c stmnts
  | .ForLoopStmnt initSmnt condition iteration bodyStmnt =>
      beginLn c ++ wr "for (" ++
      VisitStmnt core (pushInlineOptions c) initSmnt ++ wr " " ++
      (match condition with
       | some e => VisitExpr core e
       | none => Delta.nil) ++ wr "; " ++
      (match iteration with
       | some e => VisitExpr core e
       | none => Delta.nil) ++
      wr ")" ++ endLn c ++
      WriteScopedStmnt core c bodyStmnt
  | .WhileLoopStmnt condition bodyStmnt =>
      beginLn c ++ wr "while (" ++ VisitExpr core condition ++ wr ")" ++ endLn c ++
      WriteScopedStmnt core c bodyStmnt
  | .DoWhileLoopStmnt bodyStmnt condition =>
      writeLn c "do" ++
      WriteScopedStmnt core c bodyStmnt ++
      beginLn c ++ wr "while (" ++ VisitExpr core condition ++ wr ");" ++ endLn c
  | .IfStmnt condition bodyStmnt elseStmnt =>
      VisitIfStmntNode core c false (.IfStmnt condition bodyStmnt elseStmnt)
  | .SwitchStmnt selector cases =>
      beginLn c ++ wr "switch (" ++ VisitExpr core selector ++ wr ")" ++ endLn c ++
      openScopeLn c ++ VisitSwitchCaseList core (incIndent c) cases ++ closeScopeLn c false
  | .ExprStmnt _ expr =>
      beginLn c ++ VisitExpr core expr ++ wr ";" ++ endLn c
  | .ReturnStmnt expr isEndOfFunction =>
      if c.insideEntryPoint then
        WriteOutputSemanticsAssignment core c expr ++
        (if !isEndOfFunction then writeLn c "return;" else Delta.nil)
      else
        match expr with
        | some e => beginLn c ++ wr "return " ++ VisitExpr core e ++ wr ";" ++ endLn c
        | none =>
            if !isEndOfFunction then writeLn c "return;" else Delta.nil
  | .CtrlTransferStmnt transfer => writeLn c (transfer ++ ";")
  | .VarDeclStmntS v => VisitVarDeclStmnt core c v
termination_by s => (sizeOf s, 1)

/-- The if statement visitor (lines 721-739) with the
`hasElseParentNode` flag passed through the visitor argument channel. -/
def VisitIfStmntNode (core : CoreEnv) (c : Ctx) (hasElseParentNode : Bool) : Stmnt → Delta
  | .IfStmnt condition bodyStmnt elseStmnt =>
      (if !hasElseParentNode then beginLn c else Delta.nil) ++
      wr "if (" ++ VisitExpr core condition ++ wr ")" ++ endLn c ++
      WriteScopedStmnt core c bodyStmnt ++
      (match elseStmnt with
       | some e => VisitElseStmnt core c e
       | none => Delta.nil)
  | _ => Delta.nil
termination_by s => (sizeOf s, 0)

/-- The else statement visitor (lines 741-758), phrased on the else
branch's body statement: `else if` on one line, otherwise `else` with a
scoped body. -/
def VisitElseStmnt (core : CoreEnv) (c : Ctx) (bodyStmnt : Stmnt) : Delta :=
  if bodyStmnt.isIfStmnt then
    beginLn c ++ wr "else " ++ VisitIfStmntNode core c true bodyStmnt
  else
    writeLn c "else" ++ WriteScopedStmnt core c bodyStmnt
termination_by (sizeOf bodyStmnt, 3)

/-- `GLSLGenerator::WriteScopedStmnt` (lines 1543-1556): code block
statements keep their indent, every other statement body is indented. -/
def WriteScopedStmnt (core : CoreEnv) (c : Ctx) (ast : Stmnt) : Delta :=
  if !ast.isCodeBlockStmnt then
    VisitStmnt core (incIndent c) ast
  else
    VisitStmnt core c ast
termination_by (sizeOf ast, 2)

/-- The `VisitCodeBlock` visitor (lines 292-299): a braced scope around
the statement list. -/
def VisitCodeBlock (core : CoreEnv) (c : Ctx) (stmnts : List Stmnt) : Delta :=
  openScopeLn c ++ VisitStmntList core (incIndent c) stmnts ++ closeScopeLn c false
termination_by (sizeOf stmnts, 1)

/-- The statement-list loop (`Visit(ast->stmnts)`). -/
def VisitStmntList (core : CoreEnv) (c : Ctx) : List Stmnt → Delta
  | [] => Delta.nil
  | s :: rest => VisitStmnt core c s ++ VisitStmntList core c rest
termination_by ss => (sizeOf ss, 0)

/-- The switch-case list loop (`Visit(ast->cases)`). -/
def VisitSwitchCaseList (core : CoreEnv) (c : Ctx) : List SwitchCase → Delta
  | [] => Delta.nil
  | sc :: rest => VisitSwitchCase core c sc ++ VisitSwitchCaseList core c rest
termination_by cs => (sizeOf cs, 1)

/-- The `VisitSwitchCase` visitor (lines 313-335). -/
def VisitSwitchCase (core : CoreEnv) (c : Ctx) : SwitchCase → Delta
  | .mk expr stmnts =>
      (match expr with
       | some e => beginLn c ++ wr "case " ++ VisitExpr core e ++ wr ":" ++ endLn c
       | none => writeLn c "default:") ++
      VisitStmntList core (incIndent c) stmnts
termination_by sc => (sizeOf sc, 0)

end

/-! ### Interfaces, declaration statements and the program
(lines 34-181, 254-290, 390-556, 941-1113, 1518-1541) -/

/-- The input contract (spec section 6): target stage and entry-point
name; the program AST is passed separately. -/
structure ShaderInput where
  shaderTarget : ShaderTarget
  entryPoint : String

/-- The formatting options of the output contract (spec section 6); the
name-mangling prefix field is called `manglingPfx` here. -/
structure Formatting where
  lineMarks : Bool
  manglingPfx : String

/-- The option flags of the output contract. -/
structure OutputOptions where
  allowExtensions : Bool

/-- The output contract (spec section 6): version, formatting, options
and whether a statistics sink is attached. -/
structure ShaderOutput where
  shaderVersion : OutputShaderVersion
  formatting : Formatting
  options : OutputOptions
  statistics : Bool

/-- The full generator environment: the core data plus the fields only
the declaration-level emitters read, and the extension agent (component
D, a collaborator outside this source file). -/
structure Env where
  core : CoreEnv
  allowLineMarks : Bool
  allowExtensions : Bool
  nameManglingPfx : String
  agent : Program → OutputShaderVersion → ShaderTarget → Bool → List String

/-- `GLSLGenerator::Line` (lines 113-127): `#line N` as a full line,
emitted only while line marks are allowed. -/
def Line (allowLineMarks : Bool) (c : Ctx) (lineNumber : Nat) : Delta :=
  if allowLineMarks then writeLn c ("#line " ++ toString lineNumber) else Delta.nil

/-- `GLSLGenerator::Version` (lines 108-111). -/
def Version (c : Ctx) (v : OutputShaderVersion) : Delta :=
  writeLn c ("#version " ++ v.numberText)

/-- `GLSLGenerator::WriteExtension` (lines 129-132). -/
def WriteExtension (c : Ctx) (extensionName : String) : Delta :=
  writeLn c ("#extension " ++ extensionName ++ " : enable")

/-- The extension loop of `WriteVersionAndExtensions` (lines 149-154). -/
def writeExtensionList (c : Ctx) : List String → Delta
  | [] => Delta.nil
  | ext :: rest => WriteExtension c ext ++ writeExtensionList c rest

/-- `GLSLGenerator::WriteVersionAndExtensions` (lines 134-160): run the
extension agent, write `#version`, a blank, then the extensions (plus a
blank) when any are required. -/
def WriteVersionAndExtensions (env : Env) (c : Ctx) : Delta :=
  let requiredExtensions :=
    env.agent env.core.program env.core.versionOut env.core.shaderTarget env.allowExtensions
  Version c env.core.versionOut ++ blank c ++
  (if !requiredExtensions.isEmpty then
    writeExtensionList c requiredExtensions ++ blank c
  else Delta.nil)

/-- `GLSLGenerator::WriteClipIntrinsics` (lines 173-181). -/
def WriteClipIntrinsics (c : Ctx) : Delta :=
  writeLn c "void clip(float x) { if (x < 0.0) discard; }" ++
  writeLn c "void clip(vec2 x) { if (any(lessThan(x, vec2(0.0)))) discard; }" ++
  writeLn c "void clip(vec3 x) { if (any(lessThan(x, vec3(0.0)))) discard; }" ++
  writeLn c "void clip(vec4 x) { if (any(lessThan(x, vec4(0.0)))) discard; }" ++
  blank c

/-- `GLSLGenerator::WriteReferencedIntrinsics` (lines 162-171). -/
def WriteReferencedIntrinsics (core : CoreEnv) (c : Ctx) : Delta :=
  if core.program.usedIntrinsics.contains Intrinsic.Clip then
    WriteClipIntrinsics c
  else Delta.nil

/-- `GLSLGenerator::WriteAttributeNumThreads` (lines 951-972).  The
argument-count diagnostic is `Generator::ErrorInvalidNumArgs`, modelled
from the spec as a reported error naming the construct. -/
def WriteAttributeNumThreads (core : CoreEnv) (c : Ctx) (ast : Attrib) : Delta :=
  match ast.arguments with
  | [a0, a1, a2] =>
      beginLn c ++
      wr "layout(local_size_x = " ++ VisitExpr core a0 ++
      wr ", local_size_y = " ++ VisitExpr core a1 ++
      wr ", local_size_z = " ++ VisitExpr core a2 ++
      wr ") in;" ++ endLn c
  | _ => errorD "invalid number of arguments for \"numthreads\" attribute"

/-- `GLSLGenerator::WriteAttributeEarlyDepthStencil` (lines 974-977). -/
def WriteAttributeEarlyDepthStencil (c : Ctx) : Delta :=
  writeLn c "layout(early_fragment_tests) in;"

/-- `GLSLGenerator::WriteAttribute` (lines 943-949): attributes other
than `numthreads` and `earlydepthstencil` are ignored. -/
def WriteAttribute (core : CoreEnv) (c : Ctx) (ast : Attrib) : Delta :=
  if ast.ident == "numthreads" then WriteAttributeNumThreads core c ast
  else if ast.ident == "earlydepthstencil" then WriteAttributeEarlyDepthStencil c
  else Delta.nil

/-- The attribute loop of the program visitor (lines 274-279). -/
def WriteAttributeList (core : CoreEnv) (c : Ctx) : List Attrib → Delta
  | [] => Delta.nil
  | a :: rest => WriteAttribute core c a ++ WriteAttributeList core c rest

/-- `GLSLGenerator::WriteLocalInputSemanticsVarDecl` (lines 997-1018):
emitted text plus the `paramsWritten` result. -/
def WriteLocalInputSemanticsVarDecl (core : CoreEnv) (c : Ctx) (varDecl : VarDecl) :
    Delta × Bool :=
  if varDecl.semantic.IsValid then
    (match SemanticToGLSLKeyword varDecl.semantic with
     | some semanticKeyword =>
         (beginLn c ++ VisitVarType core c varDecl.declStmntVarType ++
          wr (" " ++ varDecl.ident ++ " = " ++ semanticKeyword ++ ";") ++ endLn c, true)
     | none => (errorD "failed to map semantic name to GLSL keyword", true))
  else
    (Delta.nil, false)

/-- The loop of `WriteLocalInputSemantics` (lines 981-995). -/
def writeLocalInputSemanticsLoop (core : CoreEnv) (c : Ctx) : List VarDecl → Delta × Bool
  | [] => (Delta.nil, false)
  | v :: rest =>
      let hd := WriteLocalInputSemanticsVarDecl core c v
      let tl := writeLocalInputSemanticsLoop core c rest
      (hd.1 ++ tl.1, hd.2 || tl.2)

/-- `GLSLGenerator::WriteLocalInputSemantics` (lines 981-995): local
definitions initializing system-value inputs, a blank line when any
parameter was written. -/
def WriteLocalInputSemantics (core : CoreEnv) (c : Ctx) : Delta :=
  match core.program.entryPointRef with
  | none => errorD "missing entry point reference"
  | some entryPoint =>
      let r := writeLocalInputSemanticsLoop core c entryPoint.inputSemantics.varDeclRefsSV
      r.1 ++ (if r.2 then blank c else Delta.nil)

/-- `GLSLGenerator::WriteLocalOutputSemanticsVarDecl` (lines 1068-1078):
an uninitialized local definition; always reports a written parameter. -/
def WriteLocalOutputSemanticsVarDecl (core : CoreEnv) (c : Ctx) (varDecl : VarDecl) : Delta :=
  beginLn c ++ VisitVarType core c varDecl.declStmntVarType ++
  wr (" " ++ varDecl.ident ++ ";") ++ endLn c

/-- The loop of `WriteLocalOutputSemantics` (lines 1052-1066). -/
def writeLocalOutputSemanticsLoop (core : CoreEnv) (c : Ctx) : List VarDecl → Delta
  | [] => Delta.nil
  | v :: rest =>
      WriteLocalOutputSemanticsVarDecl core c v ++ writeLocalOutputSemanticsLoop core c rest

/-- `GLSLGenerator::WriteLocalOutputSemantics` (lines 1052-1066). -/
def WriteLocalOutputSemantics (core : CoreEnv) (c : Ctx) : Delta :=
  match core.program.entryPointRef with
  | none => errorD "missing entry point reference"
  | some entryPoint =>
      let refs := entryPoint.outputSemantics.varDeclRefsSV
      writeLocalOutputSemanticsLoop core c refs ++
      (if !refs.isEmpty then blank c else Delta.nil)

/-- `GLSLGenerator::WriteGlobalInputSemanticsVarDecl` (lines 1036-1048). -/
def WriteGlobalInputSemanticsVarDecl (core : CoreEnv) (c : Ctx) (varDecl : VarDecl) : Delta :=
  beginLn c ++ wr "in " ++ VisitVarType core c varDecl.declStmntVarType ++
  wr (" " ++ varDecl.ident ++ ";") ++ endLn c

/-- The loop of `WriteGlobalInputSemantics` (lines 1020-1034). -/
def writeGlobalInputSemanticsLoop (core : CoreEnv) (c : Ctx) : List VarDecl → Delta
  | [] => Delta.nil
  | v :: rest =>
      WriteGlobalInputSemanticsVarDecl core c v ++ writeGlobalInputSemanticsLoop core c rest

/-- `GLSLGenerator::WriteGlobalInputSemantics` (lines 1020-1034). -/
def WriteGlobalInputSemantics (core : CoreEnv) (c : Ctx) : Delta :=
  match core.program.entryPointRef with
  | none => errorD "missing entry point reference"
  | some entryPoint =>
      let refs := entryPoint.inputSemantics.varDeclRefs
      writeGlobalInputSemanticsLoop core c refs ++
      (if !refs.isEmpty then blank c else Delta.nil)

/-- `GLSLGenerator::WriteGlobalOutputSemanticsVarDecl` (lines
1096-1113): a `layout(location = N)` qualifier when the semantic is
valid. -/
def WriteGlobalOutputSemanticsVarDecl (core : CoreEnv) (c : Ctx) (varDecl : VarDecl) : Delta :=
  beginLn c ++
  (if varDecl.semantic.IsValid then
    wr ("layout(location = " ++ toString varDecl.semantic.index ++ ") out ")
  else wr "out ") ++
  VisitVarType core c varDecl.declStmntVarType ++
  wr (" " ++ varDecl.ident ++ ";") ++ endLn c

/-- The loop of `WriteGlobalOutputSemantics` (lines 1080-1094). -/
def writeGlobalOutputSemanticsLoop (core : CoreEnv) (c : Ctx) : List VarDecl → Delta
  | [] => Delta.nil
  | v :: rest =>
      WriteGlobalOutputSemanticsVarDecl core c v ++ writeGlobalOutputSemanticsLoop core c rest

/-- `GLSLGenerator::WriteGlobalOutputSemantics` (lines 1080-1094). -/
def WriteGlobalOutputSemantics (core : CoreEnv) (c : Ctx) : Delta :=
  match core.program.entryPointRef with
  | none => errorD "missing entry point reference"
  | some entryPoint =>
      let refs := entryPoint.outputSemantics.varDeclRefs
      writeGlobalOutputSemanticsLoop core c refs ++
      (if !refs.isEmpty then blank c else Delta.nil)

/-- `GLSLGenerator::WriteParameter` (lines 1520-1541). -/
def WriteParameter (core : CoreEnv) (c : Ctx) (ast : VarDeclStmnt) : Delta :=
  (if !ast.inputModifier.isEmpty then wr (ast.inputModifier ++ " ") else Delta.nil) ++
  writeConstTypeModifiers ast.typeModifiers ++
  VisitVarType core c ast.varType ++ wr " " ++
  (match ast.varDecls with
   | [d] => VisitVarDecl core d
   | _ => errorD "invalid number of variables in function parameter")

/-- The parameter loop of `VisitFunctionDecl` (lines 418-424). -/
def WriteParameterListSep (core : CoreEnv) (c : Ctx) : List VarDeclStmnt → Delta
  | [] => Delta.nil
  | [p] => WriteParameter core c p
  | p :: rest => WriteParameter core c p ++ wr ", " ++ WriteParameterListSep core c rest

/-- The emission of a reachable function declaration after the
control-path check and the `#line` mark (lines 405-474): header,
optional body (with the entry-point prologue and epilogue), blank
line. -/
def VisitFunctionDeclRest (core : CoreEnv) (c : Ctx) (ast : FunctionDecl) : Delta :=
  (beginLn c ++
   (if ast.isEntryPoint then wr "void main()"
    else
      VisitVarType core c ast.returnType ++ wr (" " ++ ast.ident ++ "(") ++
      WriteParameterListSep core c ast.parameters ++ wr ")" ++
      (if ast.codeBlock.isNone then wr ";" else Delta.nil)) ++
   endLn c) ++
  (match ast.codeBlock with
   | some stmnts =>
       if ast.isEntryPoint then
         openScopeLn c ++
         (WriteLocalInputSemantics core (incIndent c) ++
          WriteLocalOutputSemantics core (incIndent c) ++
          VisitStmntList core { incIndent c with insideEntryPoint := true } stmnts ++
          (match stmnts.getLast? with
           | some (.ReturnStmnt _ _) => Delta.nil
           | _ => WriteOutputSemanticsAssignment core (incIndent c) none)) ++
         closeScopeLn c false
       else
         VisitCodeBlock core c stmnts
   | none => Delta.nil) ++
  blank c

/-- The `VisitFunctionDecl` visitor (lines 390-475): unreachable
functions are skipped (with a warning when control paths do not all
return), reachable ones are checked and emitted. -/
def VisitFunctionDecl (env : Env) (c : Ctx) (ast : FunctionDecl) : Delta :=
  if !ast.isReachable then
    (if ast.hasNonReturnControlPath then
      warningD ("not all control paths in unreferenced function '" ++ ast.ident ++
        "' return a value")
    else Delta.nil)
  else
    (if ast.hasNonReturnControlPath then
      errorD ("not all control paths in function '" ++ ast.ident ++ "' return a value")
    else Delta.nil) ++
    Line env.allowLineMarks c ast.areaRow ++
    VisitFunctionDeclRest env.core c ast

/-- The emission of a reachable uniform buffer declaration after the
`#line` mark (lines 485-503). -/
def VisitBufferDeclStmntRest (core : CoreEnv) (c : Ctx) (ast : BufferDeclStmnt) : Delta :=
  beginLn c ++ wr "layout(std140" ++
  (match Register.GetForTarget ast.slotRegisters core.shaderTarget with
   | some slotRegister => wr (", binding = " ++ toString slotRegister.slot)
   | none => Delta.nil) ++
  wr ") uniform " ++ wr ast.ident ++ endLn c ++
  openScopeLn c ++ VisitVarDeclStmntList core (incIndent c) ast.members ++
  closeScopeLn c true ++
  blank c

/-- The `VisitBufferDeclStmnt` visitor (lines 477-504). -/
def VisitBufferDeclStmnt (env : Env) (c : Ctx) (ast : BufferDeclStmnt) : Delta :=
  if !ast.isReachable then Delta.nil
  else
    Line env.allowLineMarks c ast.areaRow ++
    VisitBufferDeclStmntRest env.core c ast

/-- The texture declarator loop of `VisitTextureDeclStmnt` (lines
516-537): for each reachable declarator, the optional binding layout,
the uniform sampler line, and (when a statistics sink is attached) the
recorded (identifier, binding) pair, whose `binding` field is the local
`int binding = -1` of line 523. -/
def visitTextureDeclsLoop (core : CoreEnv) (c : Ctx) (samplerType : String) :
    List TextureDecl → Delta
  | [] => Delta.nil
  | texDecl :: rest =>
      (if texDecl.isReachable then
        let binding : Int := -1
        beginLn c ++
        (match Register.GetForTarget texDecl.slotRegisters core.shaderTarget with
         | some slotRegister =>
             wr ("layout(binding = " ++ toString slotRegister.slot ++ ") ")
         | none => Delta.nil) ++
        wr ("uniform " ++ samplerType ++ " " ++ texDecl.ident ++ ";") ++
        (if core.statsEnabled then ⟨[], [], [(texDecl.ident, binding)]⟩ else Delta.nil) ++
        endLn c
      else Delta.nil) ++
      visitTextureDeclsLoop core c samplerType rest

/-- The `VisitTextureDeclStmnt` visitor (lines 506-540).  When the
sampler keyword lookup fails the error report aborts the statement. -/
def VisitTextureDeclStmnt (core : CoreEnv) (c : Ctx) (ast : TextureDeclStmnt) : Delta :=
  if !ast.isReachable then Delta.nil
  else
    match BufferTypeToGLSLKeyword ast.textureType with
    | none => errorD "failed to map texture type to GLSL sampler type"
    | some samplerType =>
        visitTextureDeclsLoop core c samplerType ast.textureDecls ++ blank c

/-- The `VisitStructDeclStmnt` visitor (lines 542-556). -/
def VisitStructDeclStmnt (env : Env) (c : Ctx) (ast : StructDeclStmnt) : Delta :=
  if !ast.structDecl.isReachable then Delta.nil
  else if !(MustResolveStructForTarget env.core.shaderTarget ast.structDecl) then
    Line env.allowLineMarks c ast.areaRow ++
    VisitStructDecl env.core c ast.structDecl true ++
    blank c
  else Delta.nil

/-- The `VisitAliasDeclStmnt` visitor (lines 643-654). -/
def VisitAliasDeclStmnt (env : Env) (c : Ctx) (ast : AliasDeclStmnt) : Delta :=
  match ast.structDecl with
  | some structDecl =>
      if !structDecl.IsAnonymous then
        Line env.allowLineMarks c ast.areaRow ++
        VisitStructDecl env.core c structDecl true ++
        blank c
      else Delta.nil
  | none => Delta.nil

/-- The dispatch over global declaration statements. -/
def VisitGlobalStmnt (env : Env) (c : Ctx) : GlobalStmnt → Delta
  | .funcDecl f => VisitFunctionDecl env c f
  | .bufferDecl b => VisitBufferDeclStmnt env c b
  | .textureDecl t => VisitTextureDeclStmnt env.core c t
  | .structDeclStmnt s => VisitStructDeclStmnt env c s
  | .aliasDecl a => VisitAliasDeclStmnt env c a
  | .varDecl v => VisitVarDeclStmnt env.core c v

/-- The global statement loop (`Visit(ast->globalStmnts)`). -/
def VisitGlobalStmnts (env : Env) (c : Ctx) : List GlobalStmnt → Delta
  | [] => Delta.nil
  | g :: rest => VisitGlobalStmnt env c g ++ VisitGlobalStmnts env c rest

/-- The `VisitProgram` visitor (lines 254-290): version and extensions,
the fragment-stage `gl_FragCoord` layout, entry-point attributes,
referenced intrinsics, stage-specific global semantics, then the global
declarations.  A missing entry-point reference after conversion is the
unrecoverable condition of spec section 7. -/
def VisitProgram (env : Env) (c : Ctx) : Delta :=
  WriteVersionAndExtensions env c ++
  (if env.core.shaderTarget == ShaderTarget.FragmentShader then
    beginLn c ++ wr "layout(origin_upper_left" ++
    (if env.core.program.hasSM3ScreenSpace then wr ", pixel_center_integer" else Delta.nil) ++
    wr ") in vec4 gl_FragCoord;" ++ endLn c ++ blank c
  else Delta.nil) ++
  (match env.core.program.entryPointRef with
   | none => errorD "missing entry point reference"
   | some entryPoint =>
       (if !entryPoint.attribs.isEmpty then
         WriteAttributeList env.core c entryPoint.attribs ++ blank c
       else Delta.nil) ++
       WriteReferencedIntrinsics env.core c ++
       (if env.core.shaderTarget == ShaderTarget.VertexShader then
         WriteGlobalInputSemantics env.core c
       else if env.core.shaderTarget == ShaderTarget.FragmentShader then
         WriteGlobalOutputSemantics env.core c
       else Delta.nil) ++
       VisitGlobalStmnts env c env.core.program.globalStmnts)

/-- `GLSLGenerator::GenerateCodePrimary` (lines 34-96).  The analysis
and conversion passes A-C live in sibling files and are modelled from
the spec as a deterministic program transformation `passes` (sections
4.A-4.C, 5); the extension agent (component D) is the parameter
`agent`; the resolved type denoters of semantic analysis are the
parameter `typeOf`; `TimePoint()` (the timestamp of the file-header
comment, spec section 4.E prologue step 1) is the parameter `timeStr`. -/
def GenerateCodePrimary (passes : Program → Program) (typeOf : Expr → TypeDenoter)
    (agent : Program → OutputShaderVersion → ShaderTarget → Bool → List String)
    (program : Program) (inputDesc : ShaderInput) (outputDesc : ShaderOutput)
    (timeStr : String) : Delta :=
  if program.entryPointRef.isSome then
    let program' := passes program
    let env : Env :=
      { core :=
          { shaderTarget := inputDesc.shaderTarget
            versionOut := outputDesc.shaderVersion
            statsEnabled := outputDesc.statistics
            typeOf := typeOf
            program := program' }
        allowLineMarks := outputDesc.formatting.lineMarks
        allowExtensions := outputDesc.options.allowExtensions
        nameManglingPfx := outputDesc.formatting.manglingPfx
        agent := agent }
    let c := Ctx.init
    comment c
      (if inputDesc.entryPoint.isEmpty then "GLSL " ++ TargetToString inputDesc.shaderTarget
       else "GLSL " ++ TargetToString inputDesc.shaderTarget ++ " \"" ++
         inputDesc.entryPoint ++ "\"") ++
    comment c "Generated by XShaderCompiler" ++
    comment c timeStr ++
    blank c ++
    VisitProgram env c
  else
    errorD ("entry point \"" ++ inputDesc.entryPoint ++ "\" not found")

/-! ### Line structure of the emitted text

The observers used to state the claims about the emitted header: the
output split at newline characters, blank lines and comment lines. -/

/-- Split a character list into its lines at `'\n'`. -/
def splitLines : List Char → List (List Char)
  | [] => [[]]
  | ch :: rest =>
      if ch = '\n' then [] :: splitLines rest
      else
        match splitLines rest with
        | [] => [[ch]]
        | l :: ls => (ch :: l) :: ls

/-- A blank line: only space and tab characters. -/
def isBlankLine (l : List Char) : Bool := l.all (fun ch => ch == ' ' || ch == '\t')

/-- A comment line: starts with `//`. -/
def isCommentLine : List Char → Bool
  | '/' :: '/' :: _ => true
  | _ => false

/-- The first non-blank line of an output text. -/
def firstNonBlankLine (text : List Char) : Option (List Char) :=
  (splitLines text).find? (fun l => !isBlankLine l)

/-- The first non-blank, non-comment line of an output text. -/
def firstCodeLine (text : List Char) : Option (List Char) :=
  (splitLines text).find? (fun l => !isBlankLine l && !isCommentLine l)

/-! ### Decomposition of the generation run

Named pieces of `GenerateCodePrimary` and `VisitProgram`, used to state
where the timestamp and the `#version` line sit in the output. -/

/-- The environment that `GenerateCodePrimary` stores from its
parameters (lines 37-43). -/
def envOf (typeOf : Expr → TypeDenoter)
    (agent : Program → OutputShaderVersion → ShaderTarget → Bool → List String)
    (program' : Program) (inputDesc : ShaderInput) (outputDesc : ShaderOutput) : Env :=
  { core :=
      { shaderTarget := inputDesc.shaderTarget
        versionOut := outputDesc.shaderVersion
        statsEnabled := outputDesc.statistics
        typeOf := typeOf
        program := program' }
    allowLineMarks := outputDesc.formatting.lineMarks
    allowExtensions := outputDesc.options.allowExtensions
    nameManglingPfx := outputDesc.formatting.manglingPfx
    agent := agent }

/-- The first two file-header comments (lines 67-73): target name with
optional entry-point name, then the tool banner. -/
def headerComments (inputDesc : ShaderInput) : Delta :=
  comment Ctx.init
    (if inputDesc.entryPoint.isEmpty then "GLSL " ++ TargetToString inputDesc.shaderTarget
     else "GLSL " ++ TargetToString inputDesc.shaderTarget ++ " \"" ++
       inputDesc.entryPoint ++ "\"") ++
  comment Ctx.init "Generated by XShaderCompiler"

/-- Everything `GenerateCodePrimary` emits after the header comments:
the blank line and the program visit.  This part does not depend on the
timestamp. -/
def bodyAfterHeader (passes : Program → Program) (typeOf : Expr → TypeDenoter)
    (agent : Program → OutputShaderVersion → ShaderTarget → Bool → List String)
    (program : Program) (inputDesc : ShaderInput) (outputDesc : ShaderOutput) : Delta :=
  blank Ctx.init ++
  VisitProgram (envOf typeOf agent (passes program) inputDesc outputDesc) Ctx.init

/-- Everything the program visitor emits after the `#version` line: the
blank, the extension lines, the fragment-stage layout, and the
entry-point-dependent remainder (the tail of `VisitProgram`). -/
def afterVersion (env : Env) (c : Ctx) : Delta :=
  (blank c ++
   (if !(env.agent env.core.program env.core.versionOut env.core.shaderTarget
          env.allowExtensions).isEmpty then
     writeExtensionList c
       (env.agent env.core.program env.core.versionOut env.core.shaderTarget
         env.allowExtensions) ++ blank c
   else Delta.nil)) ++
  (if env.core.shaderTarget == ShaderTarget.FragmentShader then
    beginLn c ++ wr "layout(origin_upper_left" ++
    (if env.core.program.hasSM3ScreenSpace then wr ", pixel_center_integer" else Delta.nil) ++
    wr ") in vec4 gl_FragCoord;" ++ endLn c ++ blank c
  else Delta.nil) ++
  (match env.core.program.entryPointRef with
   | none => errorD "missing entry point reference"
   | some entryPoint =>
       (if !entryPoint.attribs.isEmpty then
         WriteAttributeList env.core c entryPoint.attribs ++ blank c
       else Delta.nil) ++
       WriteReferencedIntrinsics env.core c ++
       (if env.core.shaderTarget == ShaderTarget.VertexShader then
         WriteGlobalInputSemantics env.core c
       else if env.core.shaderTarget == ShaderTarget.FragmentShader then
         WriteGlobalOutputSemantics env.core c
       else Delta.nil) ++
       VisitGlobalStmnts env c env.core.program.globalStmnts)

/-- The whole emission after the version line of a generation run. -/
def bodyAfterVersion (passes : Program → Program) (typeOf : Expr → TypeDenoter)
    (agent : Program → OutputShaderVersion → ShaderTarget → Bool → List String)
    (program : Program) (inputDesc : ShaderInput) (outputDesc : ShaderOutput) : Delta :=
  afterVersion (envOf typeOf agent (passes program) inputDesc outputDesc) Ctx.init

/-! ### Sample fixtures used by the witnesses -/

/-- A sample entry-point declaration: converted `void main()` with empty
body and no semantics. -/
def sampleEntryPoint : FunctionDecl :=
  ⟨"main", 1, ⟨none, .voidT⟩, [], some [], [], ⟨"", 0⟩, ⟨[], []⟩, ⟨[], []⟩, true, false, true⟩

/-- A sample program: just the entry point. -/
def sampleProgram : Program := ⟨[], some sampleEntryPoint, [], false⟩

/-- A sample type-denoter query: every expression has type `float`. -/
def sampleTypeOf : Expr → TypeDenoter := fun _ => .base .floatT

/-- A sample extension agent: no extensions required. -/
def sampleAgent : Program → OutputShaderVersion → ShaderTarget → Bool → List String :=
  fun _ _ _ _ => []

/-- A sample core environment over `sampleProgram` (statistics off). -/
def sampleCore : CoreEnv := ⟨.VertexShader, .GLSL330, false, sampleTypeOf, sampleProgram⟩

/-- A sample core environment typing every expression as a structure. -/
def sampleCoreStructTy : CoreEnv :=
  ⟨.VertexShader, .GLSL330, false, fun _ => .structT "S", sampleProgram⟩

/-- A sample shader input: vertex stage, entry point `main`. -/
def sampleInput : ShaderInput := ⟨.VertexShader, "main"⟩

/-- A sample shader output: GLSL 330, no line marks, no extensions, no
statistics. -/
def sampleOutput : ShaderOutput := ⟨.GLSL330, ⟨false, "xsc_"⟩, ⟨false⟩, false⟩

/-- A sample generation run, parameterized by the timestamp. -/
def genSample (t : String) : Delta :=
  GenerateCodePrimary id sampleTypeOf sampleAgent sampleProgram sampleInput sampleOutput t

/-- A sample system-value output declarator (`SV_Position`). -/
def svOutVarDecl : VarDecl :=
  .mk "outPos" [] none ⟨"SV_Position", 0⟩ false (.mk none (.base .float4))

/-- A sample entry point whose output semantics carry `svOutVarDecl`. -/
def svEntryPoint : FunctionDecl :=
  ⟨"main", 1, ⟨none, .voidT⟩, [], some [], [], ⟨"SV_Position", 0⟩, ⟨[], []⟩,
    ⟨[], [svOutVarDecl]⟩, true, false, true⟩

/-- A sample program with the system-value entry point. -/
def svProgram : Program := ⟨[], some svEntryPoint, [], false⟩

/-- A sample core environment over `svProgram`. -/
def sampleCoreSV : CoreEnv := ⟨.VertexShader, .GLSL330, false, sampleTypeOf, svProgram⟩

/-- A sample texture declaration with a `t2` slot register. -/
def sampleTexStmnt : TextureDeclStmnt :=
  ⟨.Texture2D, [⟨"tex0", [⟨'t', 2, none⟩], true⟩], true⟩

/-- A sample core environment with statistics enabled. -/
def sampleCoreStats : CoreEnv := ⟨.VertexShader, .GLSL330, true, sampleTypeOf, sampleProgram⟩

/-- A sample unreachable function with non-returning control paths. -/
def sampleFnUnreachable : FunctionDecl :=
  ⟨"g", 2, ⟨none, .base .floatT⟩, [], some [], [], ⟨"", 0⟩, ⟨[], []⟩, ⟨[], []⟩,
    false, true, false⟩

/-- A sample reachable function with non-returning control paths. -/
def sampleFnReachable : FunctionDecl :=
  ⟨"g", 2, ⟨none, .base .floatT⟩, [], some [], [], ⟨"", 0⟩, ⟨[], []⟩, ⟨[], []⟩,
    true, true, false⟩

/-- A sample full environment (line marks off). -/
def sampleEnv : Env := ⟨sampleCore, false, false, "xsc_", sampleAgent⟩

/-- A sample full environment with line marks enabled. -/
def sampleEnvLM : Env := ⟨sampleCore, true, false, "xsc_", sampleAgent⟩

/-- A sample reachable function whose body is a single expression
statement at source row 5; the declaration itself sits at row 3. -/
def sampleFnBody : FunctionDecl :=
  ⟨"f", 3, ⟨none, .base .floatT⟩, [], some [.ExprStmnt 5 (.LiteralExpr "x")], [],
    ⟨"", 0⟩, ⟨[], []⟩, ⟨[], []⟩, true, false, false⟩

/-! ### General lemmas about the embedding -/

namespace Delta

@[simp] theorem append_def (a b : Delta) :
    a ++ b = ⟨a.text ++ b.text, a.diags ++ b.diags, a.stats ++ b.stats⟩ := rfl

@[simp] theorem nil_append (a : Delta) : Delta.nil ++ a = a := by
  cases a; simp [Delta.nil]

@[simp] theorem append_nil (a : Delta) : a ++ Delta.nil = a := by
  cases a; simp [Delta.nil]

theorem append_assoc (a b c : Delta) : a ++ b ++ c = a ++ (b ++ c) := by
  simp

@[simp] theorem text_append (a b : Delta) : (a ++ b).text = a.text ++ b.text := rfl

@[simp] theorem diags_append (a b : Delta) : (a ++ b).diags = a.diags ++ b.diags := rfl

@[simp] theorem stats_append (a b : Delta) : (a ++ b).stats = a.stats ++ b.stats := rfl

@[simp] theorem text_nil : Delta.nil.text = [] := rfl

@[simp] theorem diags_nil : Delta.nil.diags = [] := rfl

@[simp] theorem stats_nil : Delta.nil.stats = [] := rfl

end Delta

@[simp] theorem text_wr (s : String) : (wr s).text = s.data := rfl

@[simp] theorem diags_wr (s : String) : (wr s).diags = [] := rfl

@[simp] theorem stats_wr (s : String) : (wr s).stats = [] := rfl

@[simp] theorem text_errorD (m : String) : (errorD m).text = [] := rfl

@[simp] theorem diags_errorD (m : String) : (errorD m).diags = [⟨.error, m⟩] := rfl

@[simp] theorem text_warningD (m : String) : (warningD m).text = [] := rfl

@[simp] theorem diags_warningD (m : String) : (warningD m).diags = [⟨.warning, m⟩] := rfl

@[simp] theorem stats_diag (sev : Severity) (m : String) : (diag sev m).stats = [] := rfl

/-! ### Helper lemmas -/

theorem str_append (a b : String) : str (a ++ b) = str a ++ str b := rfl

@[simp] theorem text_beginLn (c : Ctx) :
    (beginLn c).text = if c.optNewLines then indentChars c.indent else [] := by
  simp [beginLn]; split <;> rfl

@[simp] theorem diags_beginLn (c : Ctx) : (beginLn c).diags = [] := by
  simp [beginLn]; split <;> rfl

@[simp] theorem stats_beginLn (c : Ctx) : (beginLn c).stats = [] := by
  simp [beginLn]; split <;> rfl

@[simp] theorem diags_endLn (c : Ctx) : (endLn c).diags = [] := by
  simp [endLn]; split <;> rfl

@[simp] theorem stats_endLn (c : Ctx) : (endLn c).stats = [] := by
  simp [endLn]; split <;> rfl

@[simp] theorem diags_writeLn (c : Ctx) (s : String) : (writeLn c s).diags = [] := by
  simp [writeLn]

@[simp] theorem stats_writeLn (c : Ctx) (s : String) : (writeLn c s).stats = [] := by
  simp [writeLn]

@[simp] theorem diags_blank (c : Ctx) : (blank c).diags = [] := by
  simp [blank]; split <;> rfl

@[simp] theorem stats_blank (c : Ctx) : (blank c).stats = [] := by
  simp [blank]; split <;> rfl

@[simp] theorem diags_Line (b : Bool) (c : Ctx) (n : Nat) : (Line b c n).diags = [] := by
  simp [Line]; split <;> simp

@[simp] theorem stats_Line (b : Bool) (c : Ctx) (n : Nat) : (Line b c n).stats = [] := by
  simp [Line]; split <;> simp

/-- Splitting at an explicit newline after a newline-free prefix. -/
theorem splitLines_append_newline (a b : List Char) (h : ('\n' : Char) ∉ a) :
    splitLines (a ++ '\n' :: b) = a :: splitLines b := by
  induction a with
  | nil => simp [splitLines]
  | cons ch rest ih =>
      have hch : ch ≠ '\n' := by
        intro hc
        exact h (hc ▸ List.mem_cons_self ch rest)
      have hrest : ('\n' : Char) ∉ rest := fun hm => h (List.mem_cons_of_mem ch hm)
      have hx : splitLines (rest.append ('\n' :: b)) = rest :: splitLines b := ih hrest
      simp only [List.cons_append, splitLines, if_neg hch, hx]

/-- Splitting at a leading newline. -/
theorem splitLines_cons_newline (b : List Char) :
    splitLines ('\n' :: b) = [] :: splitLines b := by
  simp [splitLines]

@[simp] theorem data_append (a b : String) : (a ++ b).data = a.data ++ b.data := rfl

/-- Helper: target names contain no newline. -/
theorem targetToString_no_newline (tg : ShaderTarget) :
    ('\n' : Char) ∉ (TargetToString tg).data := by
  cases tg <;> decide

/-- Helper: the version number text contains no newline. -/
theorem numberText_no_newline (v : OutputShaderVersion) :
    ('\n' : Char) ∉ (v.numberText).data := by
  cases v <;> decide

/-- The program visit splits at the `#version` line. -/
theorem visitProgram_eq_version_append (env : Env) (c : Ctx) :
    VisitProgram env c = Version c env.core.versionOut ++ afterVersion env c := by
  simp [VisitProgram, WriteVersionAndExtensions, afterVersion, Delta.append_assoc]

/-- Helper: scanning the emitted header.  Three comment lines, a blank
line, then a line starting with `#` is the first non-blank non-comment
line. -/
theorem firstCodeLine_of_header (hdr t vtext rest : List Char)
    (hhdr : ('\n' : Char) ∉ hdr) (ht : ('\n' : Char) ∉ t) (hv : ('\n' : Char) ∉ vtext) :
    firstCodeLine
      (('/' :: '/' :: ' ' :: hdr) ++ '\n' ::
        (('/' :: '/' :: ' ' :: str "Generated by XShaderCompiler") ++ '\n' ::
          (('/' :: '/' :: ' ' :: t) ++ '\n' ::
            '\n' :: (('#' :: vtext) ++ '\n' :: rest)))) = some ('#' :: vtext) := by
  unfold firstCodeLine
  rw [splitLines_append_newline _ _ (by
        simp only [List.mem_cons]
        push_neg
        exact ⟨by decide, by decide, by decide, hhdr⟩)]
  rw [splitLines_append_newline _ _ (by
        simp only [List.mem_cons]
        push_neg
        exact ⟨by decide, by decide, by decide, by decide⟩)]
  rw [splitLines_append_newline _ _ (by
        simp only [List.mem_cons]
        push_neg
        exact ⟨by decide, by decide, by decide, ht⟩)]
  rw [splitLines_cons_newline]
  rw [splitLines_append_newline _ _ (by
        simp only [List.mem_cons]
        push_neg
        exact ⟨by decide, hv⟩)]
  have hsharp : ((('#' : Char) == ' ') || (('#' : Char) == '\t')) = false := by decide
  simp [List.find?, isBlankLine, isCommentLine, hsharp]

/-- Helper: the same header scan, phrased on the flat append shape the
emitter produces. -/
theorem firstCodeLine_of_header_flat (hdr t vtext rest : List Char)
    (hhdr : ('\n' : Char) ∉ hdr) (ht : ('\n' : Char) ∉ t) (hv : ('\n' : Char) ∉ vtext) :
    firstCodeLine
      (str "// " ++ hdr ++ str "\n" ++ str "// " ++ str "Generated by XShaderCompiler" ++
        str "\n" ++ str "// " ++ t ++ str "\n" ++ str "\n" ++ str "#version " ++ vtext ++
        str "\n" ++ rest) =
      some (str "#version " ++ vtext) := by
  have hv2 : ('\n' : Char) ∉ (str "version " ++ vtext) := by
    intro hm
    rcases List.mem_append.mp hm with h | h
    · exact absurd h (by decide)
    · exact hv h
  have e : str "// " ++ hdr ++ str "\n" ++ str "// " ++ str "Generated by XShaderCompiler" ++
      str "\n" ++ str "// " ++ t ++ str "\n" ++ str "\n" ++ str "#version " ++ vtext ++
      str "\n" ++ rest =
      ('/' :: '/' :: ' ' :: hdr) ++ '\n' ::
        (('/' :: '/' :: ' ' :: str "Generated by XShaderCompiler") ++ '\n' ::
          (('/' :: '/' :: ' ' :: t) ++ '\n' ::
            '\n' :: (('#' :: (str "version " ++ vtext)) ++ '\n' :: rest))) := by
    simp only [List.append_assoc]
    rfl
  rw [e]
  exact firstCodeLine_of_header hdr t (str "version " ++ vtext) rest hhdr ht hv2



/-! ### Claim C1 -/

/-- C1: for every call of the `mul` intrinsic with exactly two arguments
A and B, the emitted text is `(A' * B')`, where A' and B' are the
ordinary emissions of A and B, and each is additionally wrapped in one
pair of parentheses if and only if its AST kind is a ternary, binary,
unary or post-unary expression; no other argument kind receives the
extra parentheses. -/
theorem C1_mul_parenthesization (core : CoreEnv) (vi : Option VarIdent)
    (td : Option TypeDenoter) (a b : Expr) :
    (VisitFunctionCall core (.mk vi td .Mul [a, b])).text =
      str "(" ++
      (if a.astClass = .TernaryExpr ∨ a.astClass = .BinaryExpr ∨
          a.astClass = .UnaryExpr ∨ a.astClass = .PostUnaryExpr then
        str "(" ++ (VisitExpr core a).text ++ str ")"
      else (VisitExpr core a).text) ++
      str " * " ++
      (if b.astClass = .TernaryExpr ∨ b.astClass = .BinaryExpr ∨
          b.astClass = .UnaryExpr ∨ b.astClass = .PostUnaryExpr then
        str "(" ++ (VisitExpr core b).text ++ str ")"
      else (VisitExpr core b).text) ++
      str ")" := by
  have hmb : ∀ e : Expr, mulArgumentNeedsBrackets e = true ↔
      (e.astClass = .TernaryExpr ∨ e.astClass = .BinaryExpr ∨
       e.astClass = .UnaryExpr ∨ e.astClass = .PostUnaryExpr) := by
    intro e
    simp [mulArgumentNeedsBrackets, Bool.or_eq_true, beq_iff_eq, or_assoc]
  simp only [VisitFunctionCall, WriteFunctionCallIntrinsicMul, AssertIntrinsicNumArgs]
  norm_num
  by_cases ha : (a.astClass = ASTClass.TernaryExpr ∨ a.astClass = ASTClass.BinaryExpr ∨
      a.astClass = ASTClass.UnaryExpr ∨ a.astClass = ASTClass.PostUnaryExpr) <;>
    by_cases hb : (b.astClass = ASTClass.TernaryExpr ∨ b.astClass = ASTClass.BinaryExpr ∨
        b.astClass = ASTClass.UnaryExpr ∨ b.astClass = ASTClass.PostUnaryExpr) <;>
      simp [ha, hb, hmb a, hmb b, str]

/-! ### Claim C5 -/

/-- C5: for every slot register name, including the empty name, when the
name does not begin with the expected kind character K the validation
reports exactly the diagnostic `invalid register prefix 'X' (expected
'K')` where X is the character the code reads at position 0 (the first
character of a non-empty name); the read is the head of the
null-terminated buffer `data ++ [NUL]`, which is never empty, so the
validation never reads past the bounds of the name string. -/
theorem C5_register_pfx_validation (s : String) (k : Char)
    (h : s.data.head? ≠ some k) :
    validateRegisterPfx s k =
      [⟨.error, "invalid register prefix '" ++ String.mk [cppStringAt s 0] ++
        "' (expected '" ++ String.mk [k] ++ "')"⟩] ∧
    (∀ ch rest, s.data = ch :: rest → cppStringAt s 0 = ch) ∧
    cppStringAt s 0 = (s.data ++ [Char.ofNat 0]).getD 0 (Char.ofNat 0) ∧
    0 < (s.data ++ [Char.ofNat 0]).length := by
  refine ⟨?_, ?_, ?_, ?_⟩
  · unfold validateRegisterPfx
    rw [if_pos]
    cases hd : s.data with
    | nil =>
        have hs : s = "" := String.ext (by rw [hd])
        subst hs
        have he : "".isEmpty = true := rfl
        simp [he]
    | cons ch rest =>
        have hck : ch ≠ k := by
          intro hc
          exact h (by simp [hd, hc])
        simp [cppStringAt, hd, hck, bne_iff_ne]
  · intro ch rest hd
    simp [cppStringAt, hd]
  · cases hd : s.data <;> simp [cppStringAt, hd]
  · simp

/-- Witness for C5: a name with the wrong kind character and the empty
name. -/
theorem C5_register_pfx_validation_witness :
    validateRegisterPfx "x2" 'b' =
      [⟨.error, "invalid register prefix 'x' (expected 'b')"⟩] ∧
    validateRegisterPfx "" 'b' =
      [⟨.error, "invalid register prefix '\x00' (expected 'b')"⟩] := by
  constructor
  · have h := (C5_register_pfx_validation "x2" 'b' (by decide)).1
    rw [h]
    decide
  · have h := (C5_register_pfx_validation "" 'b' (by decide)).1
    rw [h]
    decide

/-! ### Claim C6 -/

/-- C6: for every call of the `rcp` intrinsic with one argument x, when
the resolved type denoter of x is a base type the emitted delta is
exactly `(` TYPE `(1) / (` x' `))` with TYPE the GLSL keyword written
for x's data type; when it is not a base type, the error diagnostic
`invalid argument type for intrinsic 'rcp'` is reported and no text is
emitted. -/
theorem C6_rcp_emission (core : CoreEnv) (vi : Option VarIdent)
    (td : Option TypeDenoter) (x : Expr) :
    (∀ dataType, (core.typeOf x).Get = .base dataType →
        VisitFunctionCall core (.mk vi td .Rcp [x]) =
          wr "(" ++ WriteDataType core.versionOut dataType ++ wr "(1) / (" ++
          VisitExpr core x ++ wr "))") ∧
    ((core.typeOf x).Get.IsBase = false →
        VisitFunctionCall core (.mk vi td .Rcp [x]) =
          errorD "invalid argument type for intrinsic 'rcp'") := by
  constructor
  · intro dataType h
    simp [VisitFunctionCall, WriteFunctionCallIntrinsicRcp, AssertIntrinsicNumArgs, h]
  · intro h
    cases hg : (core.typeOf x).Get <;>
      simp_all [VisitFunctionCall, WriteFunctionCallIntrinsicRcp, AssertIntrinsicNumArgs,
        TypeDenoter.IsBase, errorD, diag]

/-- Witness for C6: `rcp(x)` on a float-typed argument and on a
struct-typed argument. -/
theorem C6_rcp_emission_witness :
    (VisitFunctionCall sampleCore (.mk none none .Rcp [.LiteralExpr "x"])).text =
      str "(float(1) / (x))" ∧
    VisitFunctionCall sampleCoreStructTy (.mk none none .Rcp [.LiteralExpr "x"]) =
      errorD "invalid argument type for intrinsic 'rcp'" := by
  constructor
  · have h := (C6_rcp_emission sampleCore none none (.LiteralExpr "x")).1 .floatT rfl
    rw [h]
    simp [WriteDataType, DataTypeToGLSLKeyword, DoubleToFloatDataType, sampleCore,
      OutputShaderVersion.toInt, VisitExpr, wr, str]
  · exact (C6_rcp_emission sampleCoreStructTy none none (.LiteralExpr "x")).2 rfl

/-! ### Claim C8 -/

/-- C8: for every return statement visited inside the entry-point
function body, the emitter first writes the output-semantic assignments
derived from the return expression, and then writes the line `return;`
if and only if the return statement is not flagged is-end-of-function. -/
theorem C8_entry_point_return (core : CoreEnv) (c : Ctx) (e : Option Expr) (eof : Bool)
    (h : c.insideEntryPoint = true) :
    VisitStmnt core c (.ReturnStmnt e eof) =
      WriteOutputSemanticsAssignment core c e ++
      (if eof then Delta.nil else writeLn c "return;") := by
  rw [VisitStmnt.eq_def]
  cases eof <;> simp [h]

/-- Witness for C8: a return inside the entry point with a system-value
output, once mid-function and once at the end of the function. -/
theorem C8_entry_point_return_witness :
    VisitStmnt sampleCoreSV { Ctx.init with insideEntryPoint := true }
        (.ReturnStmnt (some (.LiteralExpr "p")) false) =
      ⟨str "gl_Position = outPos;\nreturn;\n", [], []⟩ ∧
    VisitStmnt sampleCoreSV { Ctx.init with insideEntryPoint := true }
        (.ReturnStmnt (some (.LiteralExpr "p")) true) =
      ⟨str "gl_Position = outPos;\n", [], []⟩ := by
  constructor
  · rw [C8_entry_point_return sampleCoreSV _ _ false rfl]
    simp [WriteOutputSemanticsAssignment, sampleCoreSV, svProgram, svEntryPoint,
      writeSVOutputAssignments, svOutVarDecl, VarDecl.semantic, VarDecl.ident,
      Semantic.IsValid, SemanticToGLSLKeyword, writeLn, beginLn, endLn, Ctx.init,
      indentChars, wr, str, Delta.nil]
    decide
  · rw [C8_entry_point_return sampleCoreSV _ _ true rfl]
    simp [WriteOutputSemanticsAssignment, sampleCoreSV, svProgram, svEntryPoint,
      writeSVOutputAssignments, svOutVarDecl, VarDecl.semantic, VarDecl.ident,
      Semantic.IsValid, SemanticToGLSLKeyword, writeLn, beginLn, endLn, Ctx.init,
      indentChars, wr, str, Delta.nil]
    decide

/-! ### Claim C10 -/

/-- C10: for every return statement visited outside the entry point
whose expression is absent and which is flagged is-end-of-function, the
emitter writes nothing at all for that statement. -/
theorem C10_return_end_of_function (core : CoreEnv) (c : Ctx)
    (h : c.insideEntryPoint = false) :
    VisitStmnt core c (.ReturnStmnt none true) = Delta.nil := by
  rw [VisitStmnt.eq_def]
  simp [h]

/-- Witness for C10: the sample environment at the initial context. -/
theorem C10_return_end_of_function_witness :
    VisitStmnt sampleCore Ctx.init (.ReturnStmnt none true) = Delta.nil :=
  C10_return_end_of_function sampleCore Ctx.init rfl

/-! ### Claim C9 -/

/-- Helper: every statistic recorded by the texture declarator loop has
binding -1 (the local `int binding = -1` of line 523 is never
reassigned). -/
theorem visitTextureDeclsLoop_stats (core : CoreEnv) (c : Ctx) (st : String)
    (l : List TextureDecl) :
    ∀ p ∈ (visitTextureDeclsLoop core c st l).stats, p.2 = -1 := by
  induction l with
  | nil => simp [visitTextureDeclsLoop]
  | cons td rest ih =>
      intro p hp
      simp only [visitTextureDeclsLoop, Delta.stats_append] at hp
      rcases List.mem_append.mp hp with hp1 | hp2
      · by_cases hr : td.isReachable = true
        · simp [hr] at hp1
          rcases hp1 with hx | hy
          · rcases hg : Register.GetForTarget td.slotRegisters core.shaderTarget with _ | r <;>
              simp [hg] at hx
          · by_cases hs : core.statsEnabled = true <;> simp [hs] at hy
            rw [hy]
        · simp [hr] at hp1
      · exact ih p hp2

/-- C9: every (identifier, binding) pair recorded in the statistics
output by a texture declaration statement has binding -1, even when the
declaration carries a slot register whose slot is emitted in the
`layout(binding = N)` qualifier (see the witness). -/
theorem C9_texture_stats_binding (core : CoreEnv) (c : Ctx) (ast : TextureDeclStmnt)
    (p : TexStat) (hp : p ∈ (VisitTextureDeclStmnt core c ast).stats) : p.2 = -1 := by
  by_cases hr : ast.isReachable = true
  · rcases hk : BufferTypeToGLSLKeyword ast.textureType with _ | st
    · simp [VisitTextureDeclStmnt, hr, hk, errorD, diag] at hp
    · simp only [VisitTextureDeclStmnt, hr, hk, Bool.not_true, Bool.false_eq_true,
        if_false, Delta.stats_append, stats_blank, List.append_nil] at hp
      exact visitTextureDeclsLoop_stats core c st ast.textureDecls p hp
  · simp [VisitTextureDeclStmnt, hr] at hp


/-- Witness for C9: the emitted text carries `layout(binding = 2)` while
the recorded statistic carries binding -1. -/
theorem C9_texture_stats_binding_witness :
    (VisitTextureDeclStmnt sampleCoreStats Ctx.init sampleTexStmnt).stats =
      [("tex0", (-1 : Int))] ∧
    (VisitTextureDeclStmnt sampleCoreStats Ctx.init sampleTexStmnt).text =
      str "layout(binding = 2) uniform sampler2D tex0;\n\n" ∧
    (("tex0", (-1 : Int)) : TexStat).2 = -1 := by
  have hstats : (VisitTextureDeclStmnt sampleCoreStats Ctx.init sampleTexStmnt).stats =
      [("tex0", (-1 : Int))] := by
    simp [VisitTextureDeclStmnt, sampleTexStmnt, sampleCoreStats, BufferTypeToGLSLKeyword,
      visitTextureDeclsLoop, Register.GetForTarget, beginLn, endLn, blank, Ctx.init,
      indentChars, wr, str, Delta.nil]
  refine ⟨hstats, ?_, ?_⟩
  · simp [VisitTextureDeclStmnt, sampleTexStmnt, sampleCoreStats, BufferTypeToGLSLKeyword,
      visitTextureDeclsLoop, Register.GetForTarget, beginLn, endLn, blank, Ctx.init,
      indentChars, wr, str, Delta.nil]
    decide
  · exact C9_texture_stats_binding sampleCoreStats Ctx.init sampleTexStmnt
      ("tex0", (-1 : Int)) (by rw [hstats]; exact List.mem_singleton.mpr rfl)

/-! ### Claim C4 -/

/-- C4: for every function declaration flagged has-non-return-control-
path, visiting an unreachable one produces exactly a warning diagnostic
and no text, and generation continues with the following declarations
(warnings never abort); visiting a reachable one reports the error
diagnostic first. -/
theorem C4_nonreturn_control_path (env : Env) (c : Ctx) (f : FunctionDecl)
    (hf : f.hasNonReturnControlPath = true) :
    (f.isReachable = false →
      VisitFunctionDecl env c f =
        warningD ("not all control paths in unreferenced function '" ++ f.ident ++
          "' return a value") ∧
      (∀ rest, VisitGlobalStmnts env c (.funcDecl f :: rest) =
        warningD ("not all control paths in unreferenced function '" ++ f.ident ++
          "' return a value") ++ VisitGlobalStmnts env c rest)) ∧
    (f.isReachable = true →
      (VisitFunctionDecl env c f).diags.head? =
        some ⟨.error, "not all control paths in function '" ++ f.ident ++
          "' return a value"⟩) := by
  constructor
  · intro hr
    constructor
    · simp [VisitFunctionDecl, hr, hf]
    · intro rest
      simp [VisitGlobalStmnts, VisitGlobalStmnt, VisitFunctionDecl, hr, hf]
  · intro hr
    simp [VisitFunctionDecl, hr, hf, errorD, diag]


/-- Witness for C4: the unreachable function warns and emits nothing,
the reachable one reports the error first. -/
theorem C4_nonreturn_control_path_witness :
    VisitFunctionDecl sampleEnv Ctx.init sampleFnUnreachable =
      warningD "not all control paths in unreferenced function 'g' return a value" ∧
    (VisitFunctionDecl sampleEnv Ctx.init sampleFnReachable).diags.head? =
      some ⟨.error, "not all control paths in function 'g' return a value"⟩ := by
  constructor
  · have h := ((C4_nonreturn_control_path sampleEnv Ctx.init sampleFnUnreachable rfl).1 rfl).1
    rw [h]
    decide
  · have h := (C4_nonreturn_control_path sampleEnv Ctx.init sampleFnReachable rfl).2 rfl
    rw [h]
    decide


/-- C2 (amended): every generation run decomposes into the two fixed
header comments, the timestamp comment, and a remainder that does not
depend on the timestamp; two runs on the same program, input description
and options are therefore byte-identical except for the timestamp
comment line, and byte-identical whenever the timestamps also agree.
The original claim fails because of that timestamp (see the
counterexample). -/
theorem C2_amended (passes : Program → Program) (typeOf : Expr → TypeDenoter)
    (agent : Program → OutputShaderVersion → ShaderTarget → Bool → List String)
    (program : Program) (inputDesc : ShaderInput) (outputDesc : ShaderOutput) (t : String)
    (h : program.entryPointRef.isSome = true) :
    GenerateCodePrimary passes typeOf agent program inputDesc outputDesc t =
      headerComments inputDesc ++ comment Ctx.init t ++
      bodyAfterHeader passes typeOf agent program inputDesc outputDesc := by
  simp [GenerateCodePrimary, h, headerComments, bodyAfterHeader, envOf, Delta.append_assoc]

/-- Counterexample to C2 as stated: two runs on the identical program,
input description and output options, performed at different times,
produce different bytes (the timestamp comment differs). -/
theorem C2_counterexample :
    (genSample "2016-10-08 12:00:00").text ≠ (genSample "2016-10-09 12:00:00").text := by
  have h1 : (genSample "2016-10-08 12:00:00").text =
      str ("// GLSL Vertex Shader \"main\"\n// Generated by XShaderCompiler\n" ++
        "// 2016-10-08 12:00:00\n\n#version 330\n\n") := by
    have hm : "main".isEmpty = false := rfl
    simp [hm, genSample, GenerateCodePrimary, sampleProgram, sampleEntryPoint, VisitProgram,
      WriteVersionAndExtensions, Version, OutputShaderVersion.numberText,
      OutputShaderVersion.toInt, comment, writeLn, beginLn, endLn, blank, Ctx.init,
      indentChars, WriteAttributeList, WriteReferencedIntrinsics, WriteGlobalInputSemantics,
      writeGlobalInputSemanticsLoop, VisitGlobalStmnts, TargetToString, sampleAgent,
      sampleInput, sampleOutput, sampleTypeOf, wr, str, Delta.nil]
    decide
  have h2 : (genSample "2016-10-09 12:00:00").text =
      str ("// GLSL Vertex Shader \"main\"\n// Generated by XShaderCompiler\n" ++
        "// 2016-10-09 12:00:00\n\n#version 330\n\n") := by
    have hm : "main".isEmpty = false := rfl
    simp [hm, genSample, GenerateCodePrimary, sampleProgram, sampleEntryPoint, VisitProgram,
      WriteVersionAndExtensions, Version, OutputShaderVersion.numberText,
      OutputShaderVersion.toInt, comment, writeLn, beginLn, endLn, blank, Ctx.init,
      indentChars, WriteAttributeList, WriteReferencedIntrinsics, WriteGlobalInputSemantics,
      writeGlobalInputSemanticsLoop, VisitGlobalStmnts, TargetToString, sampleAgent,
      sampleInput, sampleOutput, sampleTypeOf, wr, str, Delta.nil]
    decide
  rw [h1, h2]
  decide

/-- Witness for the amended C2 at the sample fixtures. -/
theorem C2_amended_witness :
    genSample "2016-10-08 12:00:00" =
      headerComments sampleInput ++ comment Ctx.init "2016-10-08 12:00:00" ++
      bodyAfterHeader id sampleTypeOf sampleAgent sampleProgram sampleInput sampleOutput :=
  C2_amended id sampleTypeOf sampleAgent sampleProgram sampleInput sampleOutput
    "2016-10-08 12:00:00" rfl


/-! ### Claim C3 -/

set_option maxHeartbeats 1000000

/-- Counterexample to C3 as stated: in a successful sample run the first
non-blank line of the output is the target-name header comment, not the
`#version` line. -/
theorem C3_counterexample :
    firstNonBlankLine ((genSample "2016-10-08 12:00:00").text) =
      some (str "// GLSL Vertex Shader \"main\"") ∧
    some (str "// GLSL Vertex Shader \"main\"") ≠
      some (str ("#version " ++ OutputShaderVersion.numberText sampleOutput.shaderVersion)) := by
  constructor
  · have hm : "main".isEmpty = false := rfl
    have h1 : (genSample "2016-10-08 12:00:00").text =
        str ("// GLSL Vertex Shader \"main\"\n// Generated by XShaderCompiler\n" ++
          "// 2016-10-08 12:00:00\n\n#version 330\n\n") := by
      simp [hm, genSample, GenerateCodePrimary, sampleProgram, sampleEntryPoint, VisitProgram,
        WriteVersionAndExtensions, Version, OutputShaderVersion.numberText,
        OutputShaderVersion.toInt, comment, writeLn, beginLn, endLn, blank, Ctx.init,
        indentChars, WriteAttributeList, WriteReferencedIntrinsics, WriteGlobalInputSemantics,
        writeGlobalInputSemanticsLoop, VisitGlobalStmnts, TargetToString, sampleAgent,
        sampleInput, sampleOutput, sampleTypeOf, wr, str, Delta.nil]
      decide
    rw [h1]
    decide
  · decide

/-- C3 (amended): in every generation run with an entry point, with the
timestamp and entry-point name free of newline characters, the first
non-blank NON-COMMENT line of the output is exactly `#version NNN` with
NNN the configured target version and no profile suffix; only the three
`//` header comment lines and a blank line precede it.  The original
claim fails because the header comments are non-blank lines that precede
the version line (see the counterexample). -/
theorem C3_amended (passes : Program → Program) (typeOf : Expr → TypeDenoter)
    (agent : Program → OutputShaderVersion → ShaderTarget → Bool → List String)
    (program : Program) (inputDesc : ShaderInput) (outputDesc : ShaderOutput) (t : String)
    (hep : program.entryPointRef.isSome = true)
    (ht : ('\n' : Char) ∉ t.data) (he : ('\n' : Char) ∉ inputDesc.entryPoint.data) :
    firstCodeLine
        ((GenerateCodePrimary passes typeOf agent program inputDesc outputDesc t).text) =
      some (str ("#version " ++ outputDesc.shaderVersion.numberText)) := by
  have hT : (GenerateCodePrimary passes typeOf agent program inputDesc outputDesc t).text =
      str "// " ++
        str (if inputDesc.entryPoint.isEmpty then
              "GLSL " ++ TargetToString inputDesc.shaderTarget
            else
              "GLSL " ++ TargetToString inputDesc.shaderTarget ++ " \"" ++
                inputDesc.entryPoint ++ "\"") ++
        str "\n" ++
      str "// " ++ str "Generated by XShaderCompiler" ++ str "\n" ++
      str "// " ++ str t ++ str "\n" ++
      str "\n" ++
      str "#version " ++ str outputDesc.shaderVersion.numberText ++ str "\n" ++
      (bodyAfterVersion passes typeOf agent program inputDesc outputDesc).text := by
    simp [GenerateCodePrimary, hep, comment, writeLn, beginLn, endLn, blank, Ctx.init,
      indentChars, wr, str, visitProgram_eq_version_append, Version, bodyAfterVersion,
      envOf, OutputShaderVersion.numberText, List.append_assoc]
  rw [hT]
  have hhdr : ('\n' : Char) ∉
      (str (if inputDesc.entryPoint.isEmpty then
          "GLSL " ++ TargetToString inputDesc.shaderTarget
        else
          "GLSL " ++ TargetToString inputDesc.shaderTarget ++ " \"" ++
            inputDesc.entryPoint ++ "\"")) := by
    by_cases hin : inputDesc.entryPoint.isEmpty
    · rw [if_pos hin]
      intro hmem
      simp only [str, data_append, List.mem_append] at hmem
      rcases hmem with h | h
      · exact absurd h (by decide)
      · exact targetToString_no_newline _ h
    · rw [if_neg hin]
      intro hmem
      simp only [str, data_append, List.mem_append] at hmem
      rcases hmem with (((h | h) | h) | h) | h
      · exact absurd h (by decide)
      · exact targetToString_no_newline _ h
      · exact absurd h (by decide)
      · exact he h
      · exact absurd h (by decide)
  exact firstCodeLine_of_header_flat
    (str (if inputDesc.entryPoint.isEmpty then
        "GLSL " ++ TargetToString inputDesc.shaderTarget
      else
        "GLSL " ++ TargetToString inputDesc.shaderTarget ++ " \"" ++
          inputDesc.entryPoint ++ "\""))
    (str t) (str outputDesc.shaderVersion.numberText)
    ((bodyAfterVersion passes typeOf agent program inputDesc outputDesc).text)
    hhdr ht (numberText_no_newline outputDesc.shaderVersion)

/-- Witness for the amended C3 at the sample fixtures: the first
non-blank non-comment line is `#version 330`. -/
theorem C3_amended_witness :
    firstCodeLine ((genSample "2016-10-08 12:00:00").text) =
      some (str "#version 330") := by
  have h := C3_amended id sampleTypeOf sampleAgent sampleProgram sampleInput sampleOutput
    "2016-10-08 12:00:00" rfl (by decide) (by decide)
  exact h.trans (by decide)

/-! ### Claim C7 -/

/-- Counterexample to C7 as stated: with line marks enabled, the
emission of a reachable function whose body holds an expression
statement at source row 5 carries the `#line 3` directive of the
declaration but no `#line 5` line before the statement, so `#line` is
not emitted before each statement even though lineMarks is true. -/
theorem C7_counterexample :
    sampleEnvLM.allowLineMarks = true ∧
    VisitFunctionDecl sampleEnvLM Ctx.init sampleFnBody =
      ⟨str "#line 3\nfloat f()\n\x7b\n    x;\n\x7d\n\n", [], []⟩ ∧
    ((splitLines (VisitFunctionDecl sampleEnvLM Ctx.init sampleFnBody).text).contains
      (str "#line 5")) = false := by
  have heq : VisitFunctionDecl sampleEnvLM Ctx.init sampleFnBody =
      ⟨str "#line 3\nfloat f()\n\x7b\n    x;\n\x7d\n\n", [], []⟩ := by
    simp [VisitFunctionDecl, sampleEnvLM, sampleFnBody, Line, VisitFunctionDeclRest,
      VisitVarType, WriteParameterListSep, VisitCodeBlock, VisitStmntList, VisitStmnt,
      openScopeLn, closeScopeLn, writeLn, beginLn, endLn, blank, incIndent, Ctx.init,
      indentChars, WriteTypeDenoter, WriteDataType, DataTypeToGLSLKeyword,
      DoubleToFloatDataType, VisitExpr, sampleCore, wr, str, Delta.nil]
    decide
  refine ⟨rfl, heq, ?_⟩
  rw [heq]
  decide

/-- C7 (amended): a `#line N` directive, with N the declaration's source
row, is emitted (exactly when lineMarks is enabled) immediately before
reachable function declarations, reachable uniform-buffer declarations,
reachable non-resolved structure declaration statements, and non-
anonymous struct alias declarations; texture declaration statements and
variable declaration statements are emitted by visitors whose input does
not include the lineMarks option, and ordinary statements never consult
it either (the statement visitors run over the core environment, which
has no lineMarks field). -/
theorem C7_amended :
    (∀ (env : Env) (c : Ctx) (f : FunctionDecl), f.isReachable = true →
      VisitFunctionDecl env c f =
        (if f.hasNonReturnControlPath then
          errorD ("not all control paths in function '" ++ f.ident ++ "' return a value")
        else Delta.nil) ++
        (if env.allowLineMarks then writeLn c ("#line " ++ toString f.areaRow)
         else Delta.nil) ++
        VisitFunctionDeclRest env.core c f) ∧
    (∀ (env : Env) (c : Ctx) (b : BufferDeclStmnt), b.isReachable = true →
      VisitBufferDeclStmnt env c b =
        (if env.allowLineMarks then writeLn c ("#line " ++ toString b.areaRow)
         else Delta.nil) ++
        VisitBufferDeclStmntRest env.core c b) ∧
    (∀ (env : Env) (c : Ctx) (s : StructDeclStmnt),
      s.structDecl.isReachable = true →
      MustResolveStructForTarget env.core.shaderTarget s.structDecl = false →
      VisitStructDeclStmnt env c s =
        (if env.allowLineMarks then writeLn c ("#line " ++ toString s.areaRow)
         else Delta.nil) ++
        (VisitStructDecl env.core c s.structDecl true ++ blank c)) ∧
    (∀ (env : Env) (c : Ctx) (a : AliasDeclStmnt) (sd : StructDecl),
      a.structDecl = some sd → sd.IsAnonymous = false →
      VisitAliasDeclStmnt env c a =
        (if env.allowLineMarks then writeLn c ("#line " ++ toString a.areaRow)
         else Delta.nil) ++
        (VisitStructDecl env.core c sd true ++ blank c)) ∧
    (∀ (env : Env) (c : Ctx) (td : TextureDeclStmnt),
      VisitGlobalStmnt env c (.textureDecl td) = VisitTextureDeclStmnt env.core c td) ∧
    (∀ (env : Env) (c : Ctx) (v : VarDeclStmnt),
      VisitGlobalStmnt env c (.varDecl v) = VisitVarDeclStmnt env.core c v) := by
  refine ⟨?_, ?_, ?_, ?_, ?_, ?_⟩
  · intro env c f hr
    simp [VisitFunctionDecl, hr, Line, Delta.append_assoc]
  · intro env c b hr
    simp [VisitBufferDeclStmnt, hr, Line]
  · intro env c s hr hm
    simp [VisitStructDeclStmnt, hr, hm, Line, Delta.append_assoc]
  · intro env c a sd hsd han
    simp [VisitAliasDeclStmnt, hsd, han, Line, Delta.append_assoc]
  · intro env c td
    rfl
  · intro env c v
    rfl

/-- Witness for the amended C7: the sample reachable function with line
marks enabled emits its `#line 3` directive before the declaration. -/
theorem C7_amended_witness :
    VisitFunctionDecl sampleEnvLM Ctx.init sampleFnBody =
      Delta.nil ++ writeLn Ctx.init "#line 3" ++
      VisitFunctionDeclRest sampleEnvLM.core Ctx.init sampleFnBody := by
  have h := (C7_amended).1 sampleEnvLM Ctx.init sampleFnBody rfl
  rw [h]
  have h3 : ("#line " ++ toString (3 : Nat)) = "#line 3" := by decide
  simp [sampleEnvLM, sampleFnBody, h3]

end Xsc